import Mathlib

/-!
# Verification of the Stellar Cycle simulation (src/script.js)

Shallow embedding of the p5.js "Stellar Cycle" sketch.  Numbers are
rationals; the external capabilities the sketch uses (trigonometry,
square roots, Perlin noise, uniform randomness, canvas size) are
modelled as an abstract environment `Env` plus explicit unit-interval
draw oracles, so every definition stays executable and every theorem
can be instantiated at concrete inputs.
-/

namespace StellarCycle

/-- p5 `map(v, a, b, c, d)`: linear re-mapping of `v` from `[a,b]` to `[c,d]`. -/
def mapQ (v a b c d : ℚ) : ℚ := c + (d - c) * (v - a) / (b - a)

/-- p5 `lerp(a, b, t)`. -/
def lerpQ (a b t : ℚ) : ℚ := a + (b - a) * t

/-- A 2D vector (`createVector`). -/
structure Vec where
  x : ℚ
  y : ℚ
deriving DecidableEq, Repr

def vadd (a b : Vec) : Vec := ⟨a.x + b.x, a.y + b.y⟩

def vsub (a b : Vec) : Vec := ⟨a.x - b.x, a.y - b.y⟩

def vscale (k : ℚ) (a : Vec) : Vec := ⟨k * a.x, k * a.y⟩

/-- An RGB color. -/
structure Color where
  r : ℚ
  g : ℚ
  b : ℚ
deriving DecidableEq, Repr

/-- The external capabilities used by the sketch: trigonometry, square
root, Perlin noise, the `TWO_PI` constant and the canvas size.  They are
abstract functions of the environment; the simulation-state claims do
not depend on their values. -/
structure Env where
  sinQ : ℚ → ℚ
  cosQ : ℚ → ℚ
  sqrtQ : ℚ → ℚ
  noiseQ : ℚ → ℚ → ℚ → ℚ
  twoPi : ℚ
  width : ℚ
  height : ℚ

/-- Oracle of uniform unit-interval draws: `o i k` is the `k`-th draw
made for the `i`-th particle (or array element) of a call site. -/
def Oracle : Type := ℕ → ℕ → ℚ

/-- `random(lo, hi)` realised from a unit draw `t`. -/
def rlin (t lo hi : ℚ) : ℚ := lo + (hi - lo) * t

/-- The `i`,`k`-indexed draw of `random(lo, hi)` from an oracle. -/
def rnd (o : Oracle) (i k : ℕ) (lo hi : ℚ) : ℚ := rlin (o i k) lo hi

/-- An oracle whose draws all lie in the unit interval. -/
def UnitOracle (o : Oracle) : Prop := ∀ i k, 0 ≤ o i k ∧ o i k ≤ 1

/-- JavaScript `x || d` for an optional numeric option: an absent value
or the (falsy) number `0` selects the default. -/
def jsOrNum : Option ℚ → ℚ → ℚ
  | none, d => d
  | some v, d => if v = 0 then d else v

/-- JavaScript `c || d` for an optional color option: color objects are
always truthy, so only an absent color selects the default. -/
def jsOrColor : Option Color → Color → Color
  | none, d => d
  | some c, _ => c

/-- The scene states of the `STATES` object (src/script.js lines 13-21). -/
inductive SceneState where
  | INIT
  | SELECT_POSITION
  | SET_PARAMETERS
  | BIG_BANG
  | STAR_FORMATION
  | OBSERVATION
  | END
deriving DecidableEq, Repr

/-- The string value each scene state carries in the source. -/
def stateName : SceneState → String
  | .INIT => "INIT"
  | .SELECT_POSITION => "SELECT_POSITION"
  | .SET_PARAMETERS => "SET_PARAMETERS"
  | .BIG_BANG => "BIG_BANG"
  | .STAR_FORMATION => "STAR_FORMATION"
  | .OBSERVATION => "OBSERVATION"
  | .END => "END"

/-- The values of the `STATES` constant, in source order. -/
def STATES : List String :=
  ["INIT", "SELECT_POSITION", "SET_PARAMETERS", "BIG_BANG",
   "STAR_FORMATION", "OBSERVATION", "END"]

/-- The runtime error a null dereference would raise in JavaScript. -/
inductive Err where
  | nullDeref
deriving DecidableEq, Repr

/-! ## Particle -/

/-- Unit draws consumed by the `Particle` constructor for its
randomized defaults. -/
structure PDraws where
  dSpeed : ℚ
  dAngle : ℚ
  dSize : ℚ
  dAlpha : ℚ
  dVx : ℚ
  dVy : ℚ

/-- All six constructor draws lie in the unit interval. -/
def UnitPD (d : PDraws) : Prop :=
  (0 ≤ d.dSpeed ∧ d.dSpeed ≤ 1) ∧ (0 ≤ d.dAngle ∧ d.dAngle ≤ 1) ∧
  (0 ≤ d.dSize ∧ d.dSize ≤ 1) ∧ (0 ≤ d.dAlpha ∧ d.dAlpha ≤ 1) ∧
  (0 ≤ d.dVx ∧ d.dVx ≤ 1) ∧ (0 ≤ d.dVy ∧ d.dVy ≤ 1)

/-- The constructor draw record for particle `i` of a spawn call. -/
def pdraws (o : Oracle) (i : ℕ) : PDraws :=
  ⟨o i 0, o i 1, o i 2, o i 3, o i 4, o i 5⟩

/-- The options object accepted by the `Particle` constructor. -/
structure POptions where
  speed : Option ℚ := none
  angle : Option ℚ := none
  size : Option ℚ := none
  alpha : Option ℚ := none
  color : Option Color := none
  friction : Option ℚ := none
  lifeDecay : Option ℚ := none
  isExplosion : Bool := false
  isNebula : Bool := false

structure Particle where
  pos : Vec
  vel : Vec
  acc : Vec
  size : ℚ
  alpha : ℚ
  baseColor : Color
  friction : ℚ
  lifeDecay : ℚ
  isNebula : Bool
deriving DecidableEq, Repr

/-- The constructor's local `speed` (`options.speed || random(1, 3)`). -/
def Particle.optSpeed (o : POptions) (d : PDraws) : ℚ :=
  jsOrNum o.speed (rlin d.dSpeed 1 3)

/-- The constructor's local `angle` (`options.angle || random(TWO_PI)`). -/
def Particle.optAngle (o : POptions) (d : PDraws) (env : Env) : ℚ :=
  jsOrNum o.angle (rlin d.dAngle 0 env.twoPi)

/-- The `Particle` constructor (src/script.js lines 24-36). -/
def Particle.create (x y : ℚ) (o : POptions) (d : PDraws) (env : Env) : Particle :=
  let speed := Particle.optSpeed o d
  let angle := Particle.optAngle o d env
  { pos := ⟨x, y⟩
    vel := if o.isExplosion then ⟨env.cosQ angle * speed, env.sinQ angle * speed⟩
           else ⟨rlin d.dVx (-1) 1, rlin d.dVy (-1) 1⟩
    acc := ⟨0, 0⟩
    size := jsOrNum o.size (rlin d.dSize (1/2) 3)
    alpha := jsOrNum o.alpha (rlin d.dAlpha 100 255)
    baseColor := jsOrColor o.color ⟨255, 255, 255⟩
    friction := jsOrNum o.friction (98/100)
    lifeDecay := jsOrNum o.lifeDecay 1
    isNebula := o.isNebula }

/-- p5 `Vector.normalize`: divide by the magnitude unless it is zero. -/
def vnormalize (env : Env) (v : Vec) : Vec :=
  let m := env.sqrtQ (v.x ^ 2 + v.y ^ 2)
  if m = 0 then v else ⟨v.x / m, v.y / m⟩

/-- p5 `Vector.limit(l)`: rescale to magnitude `l` when above it. -/
def vlimit (env : Env) (v : Vec) (l : ℚ) : Vec :=
  let magSq := v.x ^ 2 + v.y ^ 2
  if magSq > l ^ 2 then vscale (l / env.sqrtQ magSq) v else v

/-! ## Star -/

structure Star where
  pos : Vec
  mass : ℚ
  instability : ℚ
  size : ℚ
  targetSize : ℚ
  currentAlpha : ℚ
  maxAlpha : ℚ
  life : ℚ
  isDying : Bool
  exploded : Bool
  dead : Bool
  baseColor : Color
deriving DecidableEq, Repr

/-- The mass-tiered color of `calculateStarColor` before the heritage
blend (src/script.js lines 101-118). -/
def tierColor (mass : ℚ) : Color :=
  if mass > 70 then
    ⟨mapQ mass 70 100 220 180, mapQ mass 70 100 230 210, 255⟩
  else if mass > 40 then
    ⟨255, 255, mapQ mass 40 70 200 255⟩
  else
    ⟨255, mapQ mass 0 40 80 180, mapQ mass 0 40 50 100⟩

/-- `Star.calculateStarColor` (src/script.js lines 101-128): the tiered
color, blended 15% toward the universe's heritage color when one is set. -/
def calculateStarColor (mass : ℚ) (heritage : Option Color) : Color :=
  let c := tierColor mass
  match heritage with
  | none => c
  | some h => ⟨lerpQ c.r h.r (15/100), lerpQ c.g h.g (15/100), lerpQ c.b h.b (15/100)⟩

/-- The `Star` constructor (src/script.js lines 82-99). -/
def Star.create (x y mass instability : ℚ) (heritage : Option Color) : Star :=
  { pos := ⟨x, y⟩
    mass := mass
    instability := instability
    size := 0
    targetSize := mapQ mass 0 100 15 60
    currentAlpha := 0
    maxAlpha := 255
    life := mapQ mass 0 100 800 2000
    isDying := false
    exploded := false
    dead := false
    baseColor := calculateStarColor mass heritage }

/-- The STAR_FORMATION branch of `Star.update` (src/script.js lines
131-133): grow `size` by 0.1 while below the target and `currentAlpha`
by 2 while below the maximum. -/
def Star.formationStep (s : Star) : Star :=
  let s1 := if s.size < s.targetSize then { s with size := s.size + 1/10 } else s
  if s1.currentAlpha < s1.maxAlpha then { s1 with currentAlpha := s1.currentAlpha + 2 } else s1

/-! ## Particle dynamics -/

/-- `Particle.update` (src/script.js lines 42-69).  During
STAR_FORMATION the particle seeks `universe.targetStar.pos`, a null
dereference when no star is owned; otherwise it coasts with friction
and decays by `lifeDecay`. -/
def Particle.updateE (p : Particle) (cs : SceneState) (ts : Option Star)
    (frameCount : ℚ) (env : Env) : Except Err Particle :=
  if cs = SceneState.STAR_FORMATION then
    match ts with
    | none => .error .nullDeref
    | some star =>
      let dir := vsub star.pos p.pos
      let dist := env.sqrtQ (dir.x ^ 2 + dir.y ^ 2)
      if dist < 5 then
        .ok { p with alpha := p.alpha - 8 }
      else
        let force := vscale (18/100) (vnormalize env dir)
        let acc := vadd p.acc force
        let vel := vlimit env (vadd p.vel acc) 4
        .ok { p with vel := vel, pos := vadd p.pos vel, acc := ⟨0, 0⟩ }
  else
    let vel := vscale p.friction p.vel
    let pos := vadd p.pos vel
    let alpha := p.alpha - p.lifeDecay
    let pos :=
      if p.isNebula then
        ⟨pos.x + env.sinQ (frameCount * (1/100) + alpha) * (1/5),
         pos.y + env.cosQ (frameCount * (1/100) + alpha) * (1/5)⟩
      else pos
    .ok { p with vel := vel, pos := pos, alpha := alpha }

/-- A rendering command emitted to the drawing surface. -/
inductive RCmd where
  | circle : ℚ → ℚ → ℚ → Color → ℚ → RCmd
deriving DecidableEq, Repr

/-- `Particle.draw` (src/script.js lines 71-78): a no-op once
`alpha ≤ 0`, otherwise one filled circle. -/
def Particle.drawOut (p : Particle) : List RCmd :=
  if p.alpha ≤ 0 then []
  else [RCmd.circle p.pos.x p.pos.y p.size p.baseColor p.alpha]

/-- The per-frame sweep body of `Universe.draw` over a particle list
(src/script.js lines 432-444): update each particle, then drop it when
its alpha has reached zero (backward iteration with `splice` preserves
the order of the survivors). -/
def sweepList (ps : List Particle) (cs : SceneState) (ts : Option Star)
    (frameCount : ℚ) (env : Env) : Except Err (List Particle) :=
  match ps with
  | [] => .ok []
  | p :: rest =>
    match p.updateE cs ts frameCount env with
    | .error e => .error e
    | .ok q =>
      match sweepList rest cs ts frameCount env with
      | .error e => .error e
      | .ok qs => .ok (if q.alpha ≤ 0 then qs else q :: qs)

/-! ## Universe -/

/-- A background star (`initBackgroundStars` entries). -/
structure BgStar where
  x : ℚ
  y : ℚ
  size : ℚ
  alpha : ℚ
deriving DecidableEq, Repr

/-- A nebula remnant deposited by `createRemnant`. -/
structure Remnant where
  pos : Vec
  vel : Vec
  color : Color
  alpha : ℚ
  size : ℚ
  life : ℚ
deriving DecidableEq, Repr

/-- The black-hole visual set by `gravityCollapse`. -/
structure BHEffect where
  x : ℚ
  y : ℚ
  size : ℚ
  targetSize : ℚ
  alpha : ℚ
deriving DecidableEq, Repr

/-- The white dwarf left by `nebulaRelease`. -/
structure WDwarf where
  x : ℚ
  y : ℚ
  size : ℚ
  alpha : ℚ
deriving DecidableEq, Repr

structure Universe where
  noiseOffset : ℚ
  bgStars : List BgStar
  dustParticles : List Particle
  effectParticles : List Particle
  remnants : List Remnant
  targetStar : Option Star
  shakeAmount : ℚ
  heritageColor : Option Color
  bgBrightness : ℚ
  blackHoleEffect : Option BHEffect
  whiteDwarf : Option WDwarf
  supernovaFlash : ℚ
  bigBangTimer : ℚ
deriving DecidableEq, Repr

/-- `initBackgroundStars` (src/script.js lines 240-249). -/
def initBgStars (env : Env) (o : Oracle) : List BgStar :=
  (List.range 200).map fun i =>
    ⟨rnd o i 0 0 env.width, rnd o i 1 0 env.height,
     rnd o i 2 (1/2) (3/2), rnd o i 3 50 150⟩

/-- The `Universe` constructor (src/script.js lines 226-238). -/
def Universe.init (env : Env) (o : Oracle) : Universe :=
  { noiseOffset := 0
    bgStars := initBgStars env o
    dustParticles := []
    effectParticles := []
    remnants := []
    targetStar := none
    shakeAmount := 0
    heritageColor := none
    bgBrightness := 10
    blackHoleEffect := none
    whiteDwarf := none
    supernovaFlash := 0
    bigBangTimer := 0 }

/-- `initDustParticles` (src/script.js lines 251-260): 400 particles in
an annulus around the owned star, colored like it. -/
def initDustList (s : Star) (env : Env) (o : Oracle) : List Particle :=
  (List.range 400).map fun i =>
    let angle := rnd o i 30 0 env.twoPi
    let r := rnd o i 31 (env.width * (1/5)) (max env.width env.height)
    Particle.create (s.pos.x + env.cosQ angle * r) (s.pos.y + env.sinQ angle * r)
      { color := some s.baseColor } (pdraws o i) env

/-- `createRemnant` (src/script.js lines 341-352): 150 slow debris
points with the given lifetime. -/
def Universe.createRemnant (x y : ℚ) (c : Color) (duration : ℚ) (u : Universe)
    (o : Oracle) : Universe :=
  let rs := (List.range 150).map fun i =>
    ({ pos := ⟨x + rnd o i 20 (-100) 100, y + rnd o i 21 (-100) 100⟩
       vel := ⟨rnd o i 22 (-1/5) (1/5), rnd o i 23 (-1/5) (1/5)⟩
       color := c
       alpha := rnd o i 24 20 60
       size := rnd o i 25 10 50
       life := duration } : Remnant)
  { u with remnants := u.remnants ++ rs }

/-- The JS loop `for (i = 0; i < count; i++)` over a possibly
fractional bound: the number of iterations. -/
def loopCount (q : ℚ) : ℕ := (Int.ceil q).toNat

/-- The supernova particle count, `map(mass, 40, 85, 400, 800)`
evaluated before the spawn loop (src/script.js line 268). -/
def supernovaCountQ (mass : ℚ) : ℚ := mapQ mass 40 85 400 800

/-- The number of particles the supernova loop actually creates. -/
def supernovaCount (mass : ℚ) : ℕ := loopCount (supernovaCountQ mass)

/-- `random(colors)` over the three-element supernova palette. -/
def pick3 (t : ℚ) (a b c : Color) : Color :=
  if t < 1/3 then a else if t < 2/3 then b else c

/-- The per-particle supernova speed draw, `random(2, 12)`. -/
def supernovaSpeed (o : Oracle) (i : ℕ) : ℚ := rnd o i 10 2 12

/-- The per-particle gravity-collapse speed draw, `random(1, 20)`. -/
def collapseSpeed (o : Oracle) (i : ℕ) : ℚ := rnd o i 10 1 20

/-- The per-particle nebula-release speed draw, `random(0.2, 1.5)`. -/
def nebulaSpeed (o : Oracle) (i : ℕ) : ℚ := rnd o i 10 (1/5) (3/2)

/-- `Universe.supernova` (src/script.js lines 262-290). -/
def Universe.supernova (x y mass : ℚ) (starColor : Color) (u : Universe)
    (o : Oracle) (env : Env) : Universe :=
  let u := { u with shakeAmount := 30 }
  let u := { u with supernovaFlash := 100 }
  let count := supernovaCount mass
  let ps := (List.range count).map fun i =>
    Particle.create x y
      { isExplosion := true
        speed := some (supernovaSpeed o i)
        size := some (rnd o i 11 1 4)
        color := some (pick3 (o i 12) ⟨80, 250, 123⟩ ⟨255, 184, 108⟩ starColor)
        lifeDecay := some (rnd o i 13 (1/2) (3/2))
        friction := some (97/100) } (pdraws o i) env
  let u := { u with effectParticles := u.effectParticles ++ ps }
  let u := Universe.createRemnant x y starColor 1200 u o
  { u with bgBrightness := 25 }

/-- `Universe.gravityCollapse` (src/script.js lines 292-313).  Note the
`mass` parameter is never used in the body. -/
def Universe.gravityCollapse (x y mass : ℚ) (starColor : Color) (u : Universe)
    (o : Oracle) (env : Env) : Universe :=
  let u := { u with shakeAmount := 50 }
  let u := { u with blackHoleEffect := some ⟨x, y, 0, 80, 255⟩ }
  let ps := (List.range 500).map fun i =>
    Particle.create x y
      { isExplosion := true
        speed := some (collapseSpeed o i)
        size := some (rnd o i 11 1 3)
        color := some ⟨255, 255, 255⟩
        lifeDecay := some 2 } (pdraws o i) env
  let u := { u with effectParticles := u.effectParticles ++ ps }
  Universe.createRemnant x y starColor 1500 u o

/-- `Universe.nebulaRelease` (src/script.js lines 315-339).  Note the
`mass` parameter is never used in the body. -/
def Universe.nebulaRelease (x y mass : ℚ) (starColor : Color) (u : Universe)
    (o : Oracle) (env : Env) : Universe :=
  let ps := (List.range 200).map fun i =>
    Particle.create x y
      { isExplosion := true
        speed := some (nebulaSpeed o i)
        size := some (rnd o i 11 2 5)
        color := some starColor
        lifeDecay := some (rnd o i 13 (1/5) (1/2))
        isNebula := true
        friction := some (99/100) } (pdraws o i) env
  let u := { u with effectParticles := u.effectParticles ++ ps }
  let u := { u with whiteDwarf := some { x := x, y := y, size := 8, alpha := 255 } }
  Universe.createRemnant x y starColor 1000 u o

/-- Which of the three death branches `handleEndSequence` selects, as a
pure function of the mass (the if-chain at src/script.js lines 206-218). -/
inductive DeathBranch where
  | BLACK_HOLE
  | SUPERNOVA
  | NEBULA
deriving DecidableEq, Repr

def deathBranch (mass : ℚ) : DeathBranch :=
  if mass > 85 then .BLACK_HOLE else if mass > 40 then .SUPERNOVA else .NEBULA

/-- `Star.handleEndSequence` (src/script.js lines 203-222): mark the
star exploded, fire the mass-selected death effect, mark it dead, and
store its color as the universe's heritage. -/
def Star.handleEndSequence (s : Star) (u : Universe) (o : Oracle) (env : Env) :
    Star × Universe :=
  let s := { s with exploded := true }
  if s.mass > 85 then
    let u := Universe.gravityCollapse s.pos.x s.pos.y s.mass s.baseColor u o env
    ({ s with dead := true }, { u with heritageColor := some s.baseColor })
  else if s.mass > 40 then
    let u := Universe.supernova s.pos.x s.pos.y s.mass s.baseColor u o env
    ({ s with dead := true }, { u with heritageColor := some s.baseColor })
  else
    let u := Universe.nebulaRelease s.pos.x s.pos.y s.mass s.baseColor u o env
    ({ s with dead := true }, { u with heritageColor := some s.baseColor })

/-- The death dispatch expressed over the pure branch function; used to
state that the source's if-chain is a function of the mass alone. -/
def handleEndBranch (b : DeathBranch) (s : Star) (u : Universe) (o : Oracle)
    (env : Env) : Star × Universe :=
  let s := { s with exploded := true }
  match b with
  | .BLACK_HOLE =>
    let u := Universe.gravityCollapse s.pos.x s.pos.y s.mass s.baseColor u o env
    ({ s with dead := true }, { u with heritageColor := some s.baseColor })
  | .SUPERNOVA =>
    let u := Universe.supernova s.pos.x s.pos.y s.mass s.baseColor u o env
    ({ s with dead := true }, { u with heritageColor := some s.baseColor })
  | .NEBULA =>
    let u := Universe.nebulaRelease s.pos.x s.pos.y s.mass s.baseColor u o env
    ({ s with dead := true }, { u with heritageColor := some s.baseColor })

/-- The state-relevant part of `Star.draw` (src/script.js lines
143-164): nothing once dead; the one-shot death resolution when the
scene is END and the star has not yet exploded; pure rendering
otherwise. -/
def Star.drawStep (s : Star) (cs : SceneState) (u : Universe) (o : Oracle)
    (env : Env) : Star × Universe :=
  if s.dead then (s, u)
  else if cs = SceneState.END ∧ s.exploded = false then Star.handleEndSequence s u o env
  else (s, u)

/-! ## Global state machine -/

structure GState where
  currentState : SceneState
  targetPos : Option Vec
  univ : Universe
  formationTimer : Option ℚ
  endMessage : Option String
  frameCount : ℕ
deriving DecidableEq, Repr

/-- The end-of-life message chosen in `changeState` on entering END
(src/script.js lines 553-566). -/
def endMsgFor (mass : ℚ) : String :=
  if mass > 85 then "星は、その役目を終えました。"
  else if mass > 40 then "星は、宇宙に新たな種を蒔きました。"
  else "星は、静かに宇宙へ還りました。"

/-- `changeState` (src/script.js lines 536-569): set the new state;
entering BIG_BANG arms the flash timer, shakes and repopulates the dust
field (dereferencing the owned star); entering END selects the end
message from the owned star's mass (another dereference). -/
def changeState (g : GState) (ns : SceneState) (o : Oracle) (env : Env) :
    Except Err GState :=
  let g := { g with currentState := ns }
  if ns = SceneState.BIG_BANG then
    match g.univ.targetStar with
    | none => .error .nullDeref
    | some s =>
      .ok { g with univ := { g.univ with
              bigBangTimer := 80
              shakeAmount := 15
              dustParticles := initDustList s env o } }
  else if ns = SceneState.END then
    match g.univ.targetStar with
    | none => .error .nullDeref
    | some s => .ok { g with endMessage := some (endMsgFor s.mass) }
  else .ok g

/-- One remnant field pass of `Universe.draw` (src/script.js lines
378-388): drift, age, and drop expired debris. -/
def remnantsStep (rs : List Remnant) : List Remnant :=
  rs.filterMap fun r =>
    let r := { r with pos := vadd r.pos r.vel, life := r.life - 1 }
    if r.life ≤ 0 then none else some r

/-- The black-hole visual update (src/script.js lines 416-421). -/
def bhStep (b : BHEffect) : BHEffect :=
  if b.size < b.targetSize then { b with size := b.size + 4 }
  else { b with alpha := b.alpha - 2 }

/-- The unconditional ambient updates at the head of `Universe.draw`
(shake decay, remnant aging, noise drift, white-dwarf fade, black-hole
growth), in source order. -/
def Universe.ambientStep (u : Universe) : Universe :=
  let u := if u.shakeAmount > 0 then
      let a := u.shakeAmount * (94/100)
      { u with shakeAmount := if a < 1/10 then 0 else a }
    else u
  let u := { u with remnants := remnantsStep u.remnants }
  let u := { u with noiseOffset := u.noiseOffset + 8/10000 }
  let u := { u with whiteDwarf := Option.map (fun (w : WDwarf) => { w with alpha := w.alpha - 1/2 }) u.whiteDwarf }
  { u with blackHoleEffect := Option.map bhStep u.blackHoleEffect }

/-- The two particle sweeps of `Universe.draw` (src/script.js lines
432-444), over dust then effect particles. -/
def sweepPhase (g : GState) (env : Env) : Except Err GState :=
  match sweepList g.univ.dustParticles g.currentState g.univ.targetStar
      (g.frameCount : ℚ) env with
  | .error e => .error e
  | .ok d =>
    let g := { g with univ := { g.univ with dustParticles := d } }
    match sweepList g.univ.effectParticles g.currentState g.univ.targetStar
        (g.frameCount : ℚ) env with
    | .error e => .error e
    | .ok es => .ok { g with univ := { g.univ with effectParticles := es } }

/-- The owned-star phase of `Universe.draw` (src/script.js lines
446-449): run `Star.update` (aging may request END, which reads the
star's mass for the message), then `Star.draw` (which may resolve the
death branch in the same frame). -/
def starPhase (g : GState) (o : Oracle) (env : Env) : Except Err GState :=
  match g.univ.targetStar with
  | none => .ok g
  | some s =>
    let upd : Except Err GState :=
      if g.currentState = SceneState.STAR_FORMATION then
        .ok { g with univ := { g.univ with targetStar := some s.formationStep } }
      else if g.currentState = SceneState.OBSERVATION then
        let s := { s with life := s.life - 1 }
        if s.life ≤ 0 then
          let s := { s with isDying := true }
          changeState { g with univ := { g.univ with targetStar := some s } }
            SceneState.END o env
        else .ok { g with univ := { g.univ with targetStar := some s } }
      else .ok g
    match upd with
    | .error e => .error e
    | .ok g1 =>
      match g1.univ.targetStar with
      | none => .ok g1
      | some s1 =>
        let r := Star.drawStep s1 g1.currentState g1.univ o env
        .ok { g1 with univ := { r.2 with targetStar := some r.1 } }

/-- The full-screen overlays at the tail of `Universe.draw`
(src/script.js lines 454-468): the fading supernova flash, and the
BIG_BANG flash whose timer expiry moves the scene to STAR_FORMATION. -/
def overlayPhase (g : GState) (o : Oracle) (env : Env) : Except Err GState :=
  let g := if g.univ.supernovaFlash > 0 then
      { g with univ := { g.univ with supernovaFlash := g.univ.supernovaFlash - 2 } }
    else g
  if g.currentState = SceneState.BIG_BANG then
    let t := g.univ.bigBangTimer - 1
    let g := { g with univ := { g.univ with bigBangTimer := t } }
    if t ≤ 0 then changeState g SceneState.STAR_FORMATION o env else .ok g
  else .ok g

/-- JavaScript `this.formationTimer || 300`. -/
def jsTimer : Option ℚ → ℚ
  | none => 300
  | some v => if v = 0 then 300 else v

/-- The formation-timer block of the global `draw` (src/script.js lines
514-520): count 300 frames of STAR_FORMATION, then reset the timer and
move to OBSERVATION. -/
def formationPhase (g : GState) (o : Oracle) (env : Env) : Except Err GState :=
  if g.currentState = SceneState.STAR_FORMATION then
    let t := jsTimer g.formationTimer - 1
    let g := { g with formationTimer := some t }
    if t ≤ 0 then
      changeState { g with formationTimer := some 300 } SceneState.OBSERVATION o env
    else .ok g
  else .ok g

/-- One animation frame: the whole of `Universe.draw` followed by the
state-relevant rest of the global `draw` (src/script.js lines 358-469
and 505-521). -/
def frameTick (g : GState) (o : Oracle) (env : Env) : Except Err GState :=
  let g1 := { g with univ := g.univ.ambientStep }
  match sweepPhase g1 env with
  | .error e => .error e
  | .ok g2 =>
    match starPhase g2 o env with
    | .error e => .error e
    | .ok g3 =>
      match overlayPhase g3 o env with
      | .error e => .error e
      | .ok g4 =>
        match formationPhase g4 o env with
        | .error e => .error e
        | .ok g5 => .ok { g5 with frameCount := g5.frameCount + 1 }

/-- The input events the sketch reacts to. -/
inductive Event where
  | startClick
  | canvasClick (x y : ℚ)
  | observeClick (mass instability : ℚ) (o : Oracle)
  | restartClick
  | frame (o : Oracle)

/-- An oracle for `changeState` calls that cannot enter BIG_BANG and so
never draw from it. -/
def oracle0 : Oracle := fun _ _ => 0

/-- One event step of the whole sketch: the three button handlers of
`setup` (src/script.js lines 482-502), `mousePressed` (lines 527-534)
and one animation frame. -/
def step (env : Env) (g : GState) : Event → Except Err GState
  | .startClick => changeState g SceneState.SELECT_POSITION oracle0 env
  | .canvasClick x y =>
    if g.currentState = SceneState.SELECT_POSITION then
      changeState { g with targetPos := some ⟨x, y⟩ } SceneState.SET_PARAMETERS oracle0 env
    else .ok g
  | .observeClick mass instability o =>
    match g.targetPos with
    | none => .error .nullDeref
    | some p =>
      changeState { g with univ := { g.univ with
          targetStar := some (Star.create p.x p.y mass instability g.univ.heritageColor) } }
        SceneState.BIG_BANG o env
  | .restartClick =>
    changeState { g with
        targetPos := none
        univ := { g.univ with
          targetStar := none
          dustParticles := []
          effectParticles := []
          whiteDwarf := none
          blackHoleEffect := none
          bgBrightness := 10 } }
      SceneState.INIT oracle0 env
  | .frame o => frameTick g o env

/-- The initial global state (`let currentState = "INIT"` plus `setup`'s
`universe = new Universe()`). -/
def initialG (env : Env) (o : Oracle) : GState :=
  { currentState := .INIT
    targetPos := none
    univ := Universe.init env o
    formationTimer := none
    endMessage := none
    frameCount := 0 }

/-- Run a list of events. -/
def run (env : Env) (g : GState) : List Event → Except Err GState
  | [] => .ok g
  | e :: es =>
    match step env g e with
    | .error er => .error er
    | .ok g1 => run env g1 es

/-- Run a list of events, also recording the scene state after each
event. -/
def runStates (env : Env) (g : GState) : List Event → Except Err (GState × List SceneState)
  | [] => .ok (g, [])
  | e :: es =>
    match step env g e with
    | .error er => .error er
    | .ok g1 =>
      match runStates env g1 es with
      | .error er => .error er
      | .ok (gf, sts) => .ok (gf, g1.currentState :: sts)

/-- A state the sketch can reach from startup. -/
def Reachable (env : Env) (o0 : Oracle) (g : GState) : Prop :=
  ∃ es, run env (initialG env o0) es = .ok g

/-- Collapse consecutive duplicates: the sequence of distinct scene
states a run passes through. -/
def dedupCons : List SceneState → List SceneState
  | [] => []
  | [a] => [a]
  | a :: b :: rest => if a = b then dedupCons (b :: rest) else a :: dedupCons (b :: rest)

/-- The background wash color of `Universe.draw` (src/script.js lines
367-375): near-black, tinted 1% toward the heritage color when set. -/
def Universe.bgColor (u : Universe) : Color :=
  match u.heritageColor with
  | none => ⟨5, 5, 5⟩
  | some h => ⟨lerpQ 5 h.r (1/100), lerpQ 5 h.g (1/100), lerpQ 5 h.b (1/100)⟩

/-- A simulation state: one of the four scene states whose frame logic
touches the owned star. -/
def simState (cs : SceneState) : Prop :=
  cs = SceneState.BIG_BANG ∨ cs = SceneState.STAR_FORMATION ∨
  cs = SceneState.OBSERVATION ∨ cs = SceneState.END

/-- A concrete environment for witnesses. -/
def envT : Env :=
  { sinQ := fun _ => 0, cosQ := fun _ => 0, sqrtQ := fun _ => 0,
    noiseQ := fun _ _ _ => 0, twoPi := 7, width := 800, height := 600 }

/-- A concrete unit oracle for witnesses. -/
def oT : Oracle := fun _ _ => 1/2

/-- A concrete mid-formation star for witnesses: both ramp targets
already reached. -/
def cStarW : Star :=
  { Star.create 10 20 50 30 none with size := 40, currentAlpha := 255 }

/-- A concrete STAR_FORMATION global state owning `cStarW`. -/
def cGW : GState :=
  { currentState := .STAR_FORMATION
    targetPos := some ⟨10, 20⟩
    univ := { Universe.init envT oT with targetStar := some cStarW }
    formationTimer := some 100
    endMessage := none
    frameCount := 0 }

/-! ## Theorems -/

/-- C1: `handleEndSequence` dispatches exactly along the pure mass
function `deathBranch`, with mass 95, 70, 20 selecting the black-hole,
supernova and nebula branches, at the thresholds `mass > 85`,
`40 < mass ≤ 85` and `mass ≤ 40`. -/
theorem claim_C1 :
    (∀ (s : Star) (u : Universe) (o : Oracle) (env : Env),
        Star.handleEndSequence s u o env = handleEndBranch (deathBranch s.mass) s u o env) ∧
    deathBranch 95 = DeathBranch.BLACK_HOLE ∧
    deathBranch 70 = DeathBranch.SUPERNOVA ∧
    deathBranch 20 = DeathBranch.NEBULA ∧
    (∀ m : ℚ, 85 < m → deathBranch m = DeathBranch.BLACK_HOLE) ∧
    (∀ m : ℚ, 40 < m → m ≤ 85 → deathBranch m = DeathBranch.SUPERNOVA) ∧
    (∀ m : ℚ, m ≤ 40 → deathBranch m = DeathBranch.NEBULA) := by
  refine ⟨?_, by decide, by decide, by decide, ?_, ?_, ?_⟩
  · intro s u o env
    by_cases h85 : s.mass > 85
    · simp [Star.handleEndSequence, handleEndBranch, deathBranch, h85]
    · by_cases h40 : s.mass > 40
      · simp [Star.handleEndSequence, handleEndBranch, deathBranch, h85, h40]
      · simp [Star.handleEndSequence, handleEndBranch, deathBranch, h85, h40]
  · intro m h; simp [deathBranch, h]
  · intro m h1 h2; simp [deathBranch, h1, not_lt.mpr h2]
  · intro m h
    have h1 : ¬ (m > 85) := by linarith
    have h2 : ¬ (m > 40) := by linarith
    simp [deathBranch, h1, h2]

theorem claim_C1_witness :
    Star.handleEndSequence (Star.create 0 0 95 50 none) (Universe.init envT oT) oT envT =
      handleEndBranch (deathBranch (Star.create 0 0 95 50 none).mass)
        (Star.create 0 0 95 50 none) (Universe.init envT oT) oT envT ∧
    deathBranch 90 = DeathBranch.BLACK_HOLE ∧
    deathBranch 60 = DeathBranch.SUPERNOVA ∧
    deathBranch 30 = DeathBranch.NEBULA :=
  ⟨claim_C1.1 _ _ _ _,
   claim_C1.2.2.2.2.1 90 (by decide),
   claim_C1.2.2.2.2.2.1 60 (by decide) (by decide),
   claim_C1.2.2.2.2.2.2 30 (by decide)⟩

/-- C3: the death resolution marks the star exploded and dead, and the
draw-tick resolution step (`Star.draw`'s END dispatch) is a strict
no-op on a star that has already exploded (or is dead): the star and
the universe are both returned unchanged, so no effects are spawned
and the legacy color is not written again. -/
theorem claim_C3 :
    (∀ (s : Star) (u : Universe) (o : Oracle) (env : Env),
        (Star.handleEndSequence s u o env).1.exploded = true ∧
        (Star.handleEndSequence s u o env).1.dead = true) ∧
    (∀ (s : Star) (cs : SceneState) (u : Universe) (o : Oracle) (env : Env),
        s.exploded = true → Star.drawStep s cs u o env = (s, u)) ∧
    (∀ (s : Star) (cs : SceneState) (u : Universe) (o : Oracle) (env : Env),
        s.dead = true → Star.drawStep s cs u o env = (s, u)) := by
  refine ⟨?_, ?_, ?_⟩
  · intro s u o env
    unfold Star.handleEndSequence
    by_cases h85 : s.mass > 85
    · simp [h85]
    · by_cases h40 : s.mass > 40 <;> simp [h85, h40]
  · intro s cs u o env h
    unfold Star.drawStep
    by_cases hd : s.dead <;> simp [hd, h]
  · intro s cs u o env h
    unfold Star.drawStep
    simp [h]

theorem claim_C3_witness :
    (Star.handleEndSequence (Star.create 0 0 70 10 none) (Universe.init envT oT) oT envT).1.exploded = true ∧
    Star.drawStep
      { Star.create 5 5 95 80 none with exploded := true }
      SceneState.END (Universe.init envT oT) oT envT =
      ({ Star.create 5 5 95 80 none with exploded := true }, Universe.init envT oT) ∧
    Star.drawStep
      { Star.create 5 5 20 80 none with dead := true }
      SceneState.END (Universe.init envT oT) oT envT =
      ({ Star.create 5 5 20 80 none with dead := true }, Universe.init envT oT) :=
  ⟨(claim_C3.1 _ _ _ _).1,
   claim_C3.2.1 _ _ _ _ _ rfl,
   claim_C3.2.2 _ _ _ _ _ rfl⟩

/-- C5: target size and initial life are the linear maps
`map(mass, 0, 100, 15, 60)` and `map(mass, 0, 100, 800, 2000)`, both
monotone in the mass on [0,100]; life is 800 at mass 0 (within the
claimed 400-800) and 2000 at mass 100 (within the claimed 1000-2000). -/
theorem claim_C5 :
    (∀ x y m i h, (Star.create x y m i h).targetSize = mapQ m 0 100 15 60 ∧
        (Star.create x y m i h).life = mapQ m 0 100 800 2000) ∧
    (∀ m1 m2 : ℚ, 0 ≤ m1 → m1 ≤ m2 → m2 ≤ 100 →
        mapQ m1 0 100 15 60 ≤ mapQ m2 0 100 15 60 ∧
        mapQ m1 0 100 800 2000 ≤ mapQ m2 0 100 800 2000) ∧
    (400 ≤ mapQ 0 0 100 800 2000 ∧ mapQ 0 0 100 800 2000 ≤ 800) ∧
    (1000 ≤ mapQ 100 0 100 800 2000 ∧ mapQ 100 0 100 800 2000 ≤ 2000) ∧
    (15 ≤ mapQ 0 0 100 15 60 ∧ mapQ 100 0 100 15 60 ≤ 60) := by
  refine ⟨fun x y m i h => ⟨rfl, rfl⟩, ?_, by norm_num [mapQ], by norm_num [mapQ],
    by norm_num [mapQ]⟩
  intro m1 m2 h0 h12 h100
  unfold mapQ
  constructor <;> · norm_num; linarith

theorem claim_C5_witness :
    (Star.create 1 2 50 3 none).targetSize = mapQ 50 0 100 15 60 ∧
    ((0:ℚ) ≤ 30 ∧ (30:ℚ) ≤ 60 ∧ (60:ℚ) ≤ 100) ∧
    mapQ 30 0 100 15 60 ≤ mapQ 60 0 100 15 60 ∧
    mapQ 30 0 100 800 2000 ≤ mapQ 60 0 100 800 2000 :=
  ⟨(claim_C5.1 1 2 50 3 none).1, ⟨by decide, by decide, by decide⟩,
   (claim_C5.2.1 30 60 (by decide) (by decide) (by decide)).1,
   (claim_C5.2.1 30 60 (by decide) (by decide) (by decide)).2⟩

lemma formationStep_alpha (s : Star) :
    (s.formationStep).currentAlpha =
      (if s.currentAlpha < s.maxAlpha then s.currentAlpha + 2 else s.currentAlpha) ∧
    (s.formationStep).maxAlpha = s.maxAlpha := by
  unfold Star.formationStep
  by_cases h1 : s.size < s.targetSize <;> by_cases h2 : s.currentAlpha < s.maxAlpha <;>
    simp [h1, h2]

lemma formation_alpha_ramp :
    ∀ n : ℕ, n ≤ 128 →
      (Star.formationStep^[n] (Star.create 100 100 95 80 none)).currentAlpha = 2 * n ∧
      (Star.formationStep^[n] (Star.create 100 100 95 80 none)).maxAlpha = 255 := by
  intro n
  induction n with
  | zero => intro _; exact ⟨by simp [Star.create], rfl⟩
  | succ k ih =>
    intro hk
    obtain ⟨ha, hm⟩ := ih (Nat.le_of_succ_le hk)
    have hk127 : k ≤ 127 := by omega
    rw [Function.iterate_succ_apply']
    obtain ⟨hstep, hmax⟩ :=
      formationStep_alpha (Star.formationStep^[k] (Star.create 100 100 95 80 none))
    rw [hstep, hmax, ha, hm]
    have hlt : (2 * k : ℚ) < 255 := by
      have hq : (k : ℚ) ≤ 127 := by exact_mod_cast hk127
      linarith
    rw [if_pos hlt]
    refine ⟨by push_cast; ring, rfl⟩

/-- C6 counterexample: starting from a freshly constructed star (alpha
0) in STAR_FORMATION, 128 update ticks drive `currentAlpha` to 256,
strictly above `maxAlpha = 255`: the ramp is not clamped at the target. -/
theorem claim_C6_cex :
    (Star.formationStep^[128] (Star.create 100 100 95 80 none)).currentAlpha = 256 ∧
    (Star.formationStep^[128] (Star.create 100 100 95 80 none)).maxAlpha = 255 ∧
    ¬ ((Star.formationStep^[128] (Star.create 100 100 95 80 none)).currentAlpha ≤
        (Star.formationStep^[128] (Star.create 100 100 95 80 none)).maxAlpha) := by
  obtain ⟨ha, hm⟩ := formation_alpha_ramp 128 le_rfl
  rw [ha, hm]
  norm_num

/-- C6 (amended): during STAR_FORMATION each update tick ramps `size`
(by 0.1) and `currentAlpha` (by 2) one-directionally, incrementing only
while strictly below the target, so a value at or above its target is
left unchanged; but there is no clamp, so the final increment may
overshoot the target by less than one step (size by < 0.1, alpha by
< 2 — e.g. `currentAlpha` reaches 256 > 255).  The last conjunct ties
the ramp to the actual frame flow (`Star.update` inside the star
phase). -/
theorem claim_C6 :
    ∀ s : Star,
      (s.size ≤ s.formationStep.size ∧
       s.currentAlpha ≤ s.formationStep.currentAlpha) ∧
      (s.targetSize ≤ s.size → s.formationStep.size = s.size) ∧
      (s.maxAlpha ≤ s.currentAlpha → s.formationStep.currentAlpha = s.currentAlpha) ∧
      (s.formationStep.size < max s.size s.targetSize + 1/10 ∧
       s.formationStep.currentAlpha < max s.currentAlpha s.maxAlpha + 2) ∧
      (∀ (g : GState) (o : Oracle) (env : Env),
        g.currentState = SceneState.STAR_FORMATION →
        g.univ.targetStar = some s →
        starPhase g o env =
          .ok { g with univ := { g.univ with targetStar := some s.formationStep } }) := by
  intro s
  have hform : ∀ (g : GState) (o : Oracle) (env : Env),
      g.currentState = SceneState.STAR_FORMATION →
      g.univ.targetStar = some s →
      starPhase g o env =
        .ok { g with univ := { g.univ with targetStar := some s.formationStep } } := by
    intro g o env hcs hst
    unfold starPhase
    rw [hst]
    simp only [hcs, if_true, reduceIte]
    unfold Star.drawStep
    by_cases hd : s.formationStep.dead <;> simp [hd]
  have hsz : s.formationStep.size =
      (if s.size < s.targetSize then s.size + 1/10 else s.size) := by
    unfold Star.formationStep
    by_cases h1 : s.size < s.targetSize <;> by_cases h2 : s.currentAlpha < s.maxAlpha <;>
      simp [h1, h2]
  obtain ⟨hal, _⟩ := formationStep_alpha s
  refine ⟨⟨?_, ?_⟩, ?_, ?_, ⟨?_, ?_⟩, hform⟩
  · rw [hsz]; by_cases h1 : s.size < s.targetSize <;> simp [h1]
  · rw [hal]; by_cases h2 : s.currentAlpha < s.maxAlpha <;> simp [h2]
  · intro h; rw [hsz, if_neg (not_lt.mpr h)]
  · intro h; rw [hal, if_neg (not_lt.mpr h)]
  · rw [hsz]
    by_cases h1 : s.size < s.targetSize
    · rw [if_pos h1, max_eq_right (le_of_lt h1)]; linarith
    · rw [if_neg h1, max_eq_left (le_of_not_lt h1)]; linarith
  · rw [hal]
    by_cases h2 : s.currentAlpha < s.maxAlpha
    · rw [if_pos h2, max_eq_right (le_of_lt h2)]; linarith
    · rw [if_neg h2, max_eq_left (le_of_not_lt h2)]; linarith

theorem claim_C6_witness :
    cStarW.formationStep.size = cStarW.size ∧
    cStarW.formationStep.currentAlpha = cStarW.currentAlpha ∧
    starPhase cGW oT envT =
      .ok { cGW with univ := { cGW.univ with targetStar := some cStarW.formationStep } } :=
  ⟨(claim_C6 cStarW).2.1 (by norm_num [cStarW, Star.create, mapQ]),
   (claim_C6 cStarW).2.2.1 (by norm_num [cStarW, Star.create]),
   (claim_C6 cStarW).2.2.2.2 cGW oT envT rfl rfl⟩

/-- C7 counterexample: the gravity-collapse burst is identical at mass
50 and mass 100 (its body never reads the mass), and the nebula burst
has exactly 200 particles at both mass 10 and mass 40 — so neither
count nor speed range scales with the star's mass in those branches. -/
theorem claim_C7_cex :
    Universe.gravityCollapse 0 0 50 ⟨255, 255, 255⟩ (Universe.init envT oT) oT envT =
      Universe.gravityCollapse 0 0 100 ⟨255, 255, 255⟩ (Universe.init envT oT) oT envT ∧
    (Universe.nebulaRelease 0 0 10 ⟨255, 255, 255⟩ (Universe.init envT oT) oT envT).effectParticles.length = 200 ∧
    (Universe.nebulaRelease 0 0 40 ⟨255, 255, 255⟩ (Universe.init envT oT) oT envT).effectParticles.length = 200 := by
  refine ⟨rfl, ?_, ?_⟩ <;>
    simp [Universe.nebulaRelease, Universe.createRemnant, Universe.init]

/-- C7 (amended): only the supernova branch's particle count scales
(linearly, strictly) with mass; the gravity-collapse and nebula bursts
are mass-independent, with fixed counts 500 and 200; each mode's speed
range is a fixed interval ([2,12], [1,20], [0.2,1.5]) that does not
depend on mass. -/
theorem claim_C7 :
    (∀ m1 m2 : ℚ, m1 < m2 → supernovaCountQ m1 < supernovaCountQ m2) ∧
    (∀ m1 m2 : ℚ, m1 ≤ m2 → supernovaCount m1 ≤ supernovaCount m2) ∧
    (∀ x y m c u o env, (Universe.supernova x y m c u o env).effectParticles.length =
        u.effectParticles.length + supernovaCount m) ∧
    (∀ x y m m2 c u o env,
        Universe.gravityCollapse x y m c u o env = Universe.gravityCollapse x y m2 c u o env) ∧
    (∀ x y m c u o env, (Universe.gravityCollapse x y m c u o env).effectParticles.length =
        u.effectParticles.length + 500) ∧
    (∀ x y m m2 c u o env,
        Universe.nebulaRelease x y m c u o env = Universe.nebulaRelease x y m2 c u o env) ∧
    (∀ x y m c u o env, (Universe.nebulaRelease x y m c u o env).effectParticles.length =
        u.effectParticles.length + 200) ∧
    (∀ o, UnitOracle o → ∀ i,
        (2 ≤ supernovaSpeed o i ∧ supernovaSpeed o i ≤ 12) ∧
        (1 ≤ collapseSpeed o i ∧ collapseSpeed o i ≤ 20) ∧
        (1/5 ≤ nebulaSpeed o i ∧ nebulaSpeed o i ≤ 3/2)) := by
  have hmono : ∀ m1 m2 : ℚ, m1 < m2 → supernovaCountQ m1 < supernovaCountQ m2 := by
    intro m1 m2 h
    unfold supernovaCountQ mapQ
    norm_num
    linarith
  refine ⟨hmono, ?_, ?_, ?_, ?_, ?_, ?_, ?_⟩
  · intro m1 m2 h
    unfold supernovaCount loopCount
    rcases eq_or_lt_of_le h with rfl | hlt
    · exact le_rfl
    · exact Int.toNat_le_toNat (Int.ceil_le_ceil (le_of_lt (hmono m1 m2 hlt)))
  · intro x y m c u o env
    simp [Universe.supernova, Universe.createRemnant, supernovaCount]
  · intro x y m m2 c u o env; rfl
  · intro x y m c u o env
    simp [Universe.gravityCollapse, Universe.createRemnant]
  · intro x y m m2 c u o env; rfl
  · intro x y m c u o env
    simp [Universe.nebulaRelease, Universe.createRemnant]
  · intro o ho i
    obtain ⟨h0, h1⟩ := ho i 10
    unfold supernovaSpeed collapseSpeed nebulaSpeed rnd rlin
    norm_num
    constructor
    · constructor <;> linarith
    constructor
    · constructor <;> linarith
    constructor <;> linarith

theorem claim_C7_witness :
    supernovaCountQ 50 < supernovaCountQ 70 ∧
    supernovaCount 50 ≤ supernovaCount 70 ∧
    ((2 ≤ supernovaSpeed oT 0 ∧ supernovaSpeed oT 0 ≤ 12) ∧
     (1 ≤ collapseSpeed oT 0 ∧ collapseSpeed oT 0 ≤ 20) ∧
     (1/5 ≤ nebulaSpeed oT 0 ∧ nebulaSpeed oT 0 ≤ 3/2)) :=
  ⟨claim_C7.1 50 70 (by norm_num),
   claim_C7.2.1 50 70 (by norm_num),
   claim_C7.2.2.2.2.2.2.2 oT (fun i k => ⟨by norm_num [oT], by norm_num [oT]⟩) 0⟩

lemma jsOrNum_ne_zero (ov : Option ℚ) (dflt : ℚ) (h : dflt ≠ 0) : jsOrNum ov dflt ≠ 0 := by
  cases ov with
  | none => simpa [jsOrNum]
  | some v => by_cases hv : v = 0 <;> simp [jsOrNum, hv, h]

/-- C10: in the `Particle` constructor every numeric option supplied as
the (falsy) value 0 — speed, angle, size, alpha, lifeDecay, friction —
is silently replaced by its randomized or fixed default, and an absent
color by white; consequently no particle built through the options
interface can have alpha 0, size 0, lifeDecay 0, or local speed 0. -/
theorem claim_C10 :
    ∀ (x y : ℚ) (opt : POptions) (d : PDraws) (env : Env), UnitPD d →
      ((opt.alpha = some 0 → (Particle.create x y opt d env).alpha = rlin d.dAlpha 100 255) ∧
       (opt.size = some 0 → (Particle.create x y opt d env).size = rlin d.dSize (1/2) 3) ∧
       (opt.lifeDecay = some 0 → (Particle.create x y opt d env).lifeDecay = 1) ∧
       (opt.friction = some 0 → (Particle.create x y opt d env).friction = 98/100) ∧
       (opt.speed = some 0 → Particle.optSpeed opt d = rlin d.dSpeed 1 3) ∧
       (opt.angle = some 0 → Particle.optAngle opt d env = rlin d.dAngle 0 env.twoPi) ∧
       (opt.color = none → (Particle.create x y opt d env).baseColor = ⟨255, 255, 255⟩)) ∧
      ((Particle.create x y opt d env).alpha ≠ 0 ∧
       (Particle.create x y opt d env).size ≠ 0 ∧
       (Particle.create x y opt d env).lifeDecay ≠ 0 ∧
       Particle.optSpeed opt d ≠ 0) := by
  intro x y opt d env hd
  obtain ⟨⟨hs0, hs1⟩, _, ⟨hz0, hz1⟩, ⟨ha0, ha1⟩, _, _⟩ := hd
  have halpha : (0:ℚ) < rlin d.dAlpha 100 255 := by unfold rlin; linarith
  have hsize : (0:ℚ) < rlin d.dSize (1/2) 3 := by unfold rlin; linarith
  have hspeed : (0:ℚ) < rlin d.dSpeed 1 3 := by unfold rlin; linarith
  refine ⟨⟨?_, ?_, ?_, ?_, ?_, ?_, ?_⟩, ?_, ?_, ?_, ?_⟩
  · intro h; simp [Particle.create, h, jsOrNum]
  · intro h; simp [Particle.create, h, jsOrNum]
  · intro h; simp [Particle.create, h, jsOrNum]
  · intro h; simp [Particle.create, h, jsOrNum]
  · intro h; simp [Particle.optSpeed, h, jsOrNum]
  · intro h; simp [Particle.optAngle, h, jsOrNum]
  · intro h; simp [Particle.create, h, jsOrColor]
  · simpa [Particle.create] using jsOrNum_ne_zero opt.alpha _ (ne_of_gt halpha)
  · simpa [Particle.create] using jsOrNum_ne_zero opt.size _ (ne_of_gt hsize)
  · simpa [Particle.create] using jsOrNum_ne_zero opt.lifeDecay _ one_ne_zero
  · simpa [Particle.optSpeed] using jsOrNum_ne_zero opt.speed _ (ne_of_gt hspeed)

theorem claim_C10_witness :
    ((Particle.create 0 0 { alpha := some 0, size := some 0, lifeDecay := some 0 }
        (pdraws oT 0) envT).alpha = rlin (1/2) 100 255 ∧
     (Particle.create 0 0 { alpha := some 0, size := some 0, lifeDecay := some 0 }
        (pdraws oT 0) envT).lifeDecay = 1) ∧
    (Particle.create 0 0 { alpha := some 0, size := some 0, lifeDecay := some 0 }
        (pdraws oT 0) envT).alpha ≠ 0 := by
  have h := claim_C10 0 0 { alpha := some 0, size := some 0, lifeDecay := some 0 }
    (pdraws oT 0) envT (by refine ⟨?_, ?_, ?_, ?_, ?_, ?_⟩ <;> constructor <;> norm_num [pdraws, oT])
  exact ⟨⟨h.1.1 rfl, h.1.2.2.1 rfl⟩, h.2.1⟩

/-- C4: any particle update outside STAR_FORMATION succeeds and lowers
alpha by exactly `lifeDecay` (strictly, when the decay rate is
positive); draw emits nothing once alpha ≤ 0; and every particle that
survives a sweep has strictly positive alpha, i.e. the sweep removes
every particle whose alpha has reached 0. -/
theorem claim_C4 :
    (∀ (p : Particle) (cs : SceneState) (ts : Option Star) (fc : ℚ) (env : Env),
        cs ≠ SceneState.STAR_FORMATION →
        ∃ q, Particle.updateE p cs ts fc env = .ok q ∧
          q.alpha = p.alpha - p.lifeDecay ∧ q.lifeDecay = p.lifeDecay ∧
          (0 < p.lifeDecay → q.alpha < p.alpha)) ∧
    (∀ p : Particle, p.alpha ≤ 0 → Particle.drawOut p = []) ∧
    (∀ (ps : List Particle) (cs : SceneState) (ts : Option Star) (fc : ℚ) (env : Env)
        (qs : List Particle), sweepList ps cs ts fc env = .ok qs →
        ∀ q ∈ qs, 0 < q.alpha) := by
  refine ⟨?_, ?_, ?_⟩
  · intro p cs ts fc env h
    unfold Particle.updateE
    rw [if_neg h]
    refine ⟨_, rfl, by simp, by simp, fun hd => by simp; linarith⟩
  · intro p h
    simp [Particle.drawOut, h]
  · intro ps cs ts fc env qs h q hq
    induction ps generalizing qs with
    | nil =>
      unfold sweepList at h
      cases h
      simp at hq
    | cons p rest ih =>
      unfold sweepList at h
      cases hu : p.updateE cs ts fc env with
      | error e => rw [hu] at h; cases h
      | ok pq =>
        rw [hu] at h
        cases hr : sweepList rest cs ts fc env with
        | error e => rw [hr] at h; cases h
        | ok rs =>
          rw [hr] at h
          cases h
          by_cases ha : pq.alpha ≤ 0
          · rw [if_pos ha] at hq
            exact ih rs hr hq
          · rw [if_neg ha] at hq
            rcases List.mem_cons.mp hq with rfl | hmem
            · exact lt_of_not_le ha
            · exact ih rs hr hmem

theorem claim_C4_witness :
    (∃ q, Particle.updateE (Particle.create 0 0 {} (pdraws oT 0) envT)
        SceneState.OBSERVATION none 0 envT = .ok q ∧
      q.alpha = (Particle.create 0 0 {} (pdraws oT 0) envT).alpha -
        (Particle.create 0 0 {} (pdraws oT 0) envT).lifeDecay ∧
      q.lifeDecay = (Particle.create 0 0 {} (pdraws oT 0) envT).lifeDecay ∧
      (0 < (Particle.create 0 0 {} (pdraws oT 0) envT).lifeDecay →
        q.alpha < (Particle.create 0 0 {} (pdraws oT 0) envT).alpha)) ∧
    Particle.drawOut { Particle.create 0 0 {} (pdraws oT 0) envT with alpha := 0 } = [] ∧
    (∀ q ∈ ([] : List Particle), 0 < q.alpha) :=
  ⟨claim_C4.1 (Particle.create 0 0 {} (pdraws oT 0) envT) SceneState.OBSERVATION none 0 envT
      (by simp),
   claim_C4.2.1 _ (by norm_num),
   claim_C4.2.2 [{ Particle.create 0 0 {} (pdraws oT 0) envT with alpha := 0 }]
      SceneState.OBSERVATION none 0 envT [] (by
        simp [sweepList, Particle.updateE, Particle.create, pdraws, oT, jsOrNum])⟩

/-! ## Machine lemmas -/

lemma ambientStep_facts (u : Universe) :
    (u.ambientStep).targetStar = u.targetStar ∧
    (u.ambientStep).heritageColor = u.heritageColor ∧
    (u.ambientStep).bgBrightness = u.bgBrightness ∧
    (u.ambientStep).bigBangTimer = u.bigBangTimer ∧
    (u.ambientStep).dustParticles = u.dustParticles ∧
    (u.ambientStep).effectParticles = u.effectParticles ∧
    (u.ambientStep).supernovaFlash = u.supernovaFlash := by
  unfold Universe.ambientStep
  by_cases h : u.shakeAmount > 0 <;> simp [h]

lemma changeState_ok_facts (g : GState) (ns : SceneState) (o : Oracle) (env : Env)
    (g' : GState) (h : changeState g ns o env = .ok g') :
    g'.currentState = ns ∧
    g'.univ.targetStar = g.univ.targetStar ∧
    g'.univ.heritageColor = g.univ.heritageColor ∧
    g'.univ.bgBrightness = g.univ.bgBrightness ∧
    g'.targetPos = g.targetPos ∧
    g'.formationTimer = g.formationTimer ∧
    g'.frameCount = g.frameCount := by
  unfold changeState at h
  by_cases hbb : ns = SceneState.BIG_BANG
  · rw [if_pos hbb] at h
    cases hts : g.univ.targetStar with
    | none => rw [hts] at h; cases h
    | some s =>
      rw [hts] at h
      simp only [Except.ok.injEq] at h
      subst h
      simp [hts, hbb]
  · rw [if_neg hbb] at h
    by_cases hend : ns = SceneState.END
    · rw [if_pos hend] at h
      cases hts : g.univ.targetStar with
      | none => rw [hts] at h; cases h
      | some s =>
        rw [hts] at h
        simp only [Except.ok.injEq] at h
        subst h
        simp [hts]
    · rw [if_neg hend] at h
      simp only [Except.ok.injEq] at h
      subst h
      simp

lemma changeState_notBBEnd_ok (g : GState) (ns : SceneState) (o : Oracle) (env : Env)
    (h1 : ns ≠ SceneState.BIG_BANG) (h2 : ns ≠ SceneState.END) :
    changeState g ns o env = .ok { g with currentState := ns } := by
  unfold changeState
  rw [if_neg h1, if_neg h2]

lemma changeState_end_ok (g : GState) (o : Oracle) (env : Env) (s : Star)
    (hts : g.univ.targetStar = some s) :
    changeState g SceneState.END o env =
      .ok { g with currentState := SceneState.END,
                   endMessage := some (endMsgFor s.mass) } := by
  unfold changeState
  simp [hts]

lemma handleEnd_facts (s : Star) (u : Universe) (o : Oracle) (env : Env) :
    (Star.handleEndSequence s u o env).2.heritageColor = some s.baseColor ∧
    ((Star.handleEndSequence s u o env).2.bgBrightness = u.bgBrightness ∨
      (Star.handleEndSequence s u o env).2.bgBrightness = 25) ∧
    (Star.handleEndSequence s u o env).2.targetStar = u.targetStar ∧
    (Star.handleEndSequence s u o env).1.exploded = true ∧
    (Star.handleEndSequence s u o env).1.dead = true ∧
    (Star.handleEndSequence s u o env).1.mass = s.mass := by
  unfold Star.handleEndSequence
  by_cases h85 : s.mass > 85
  · simp [h85, Universe.gravityCollapse, Universe.createRemnant]
  · by_cases h40 : s.mass > 40
    · simp [h85, h40, Universe.supernova, Universe.createRemnant]
    · simp [h85, h40, Universe.nebulaRelease, Universe.createRemnant]

lemma updateE_ok (p : Particle) (cs : SceneState) (ts : Option Star) (fc : ℚ) (env : Env)
    (h : cs = SceneState.STAR_FORMATION → ts.isSome) :
    ∃ q, p.updateE cs ts fc env = .ok q := by
  unfold Particle.updateE
  by_cases hcs : cs = SceneState.STAR_FORMATION
  · cases hts : ts with
    | none => rw [hts] at h; simp at h; exact absurd (h hcs) (by simp)
    | some star =>
      rw [if_pos hcs]
      by_cases hdist : env.sqrtQ ((vsub star.pos p.pos).x ^ 2 + (vsub star.pos p.pos).y ^ 2) < 5 <;>
        simp [hdist]
  · rw [if_neg hcs]
    exact ⟨_, rfl⟩

lemma sweepList_ok (ps : List Particle) (cs : SceneState) (ts : Option Star) (fc : ℚ)
    (env : Env) (h : cs = SceneState.STAR_FORMATION → ts.isSome) :
    ∃ qs, sweepList ps cs ts fc env = .ok qs := by
  induction ps with
  | nil => exact ⟨[], rfl⟩
  | cons p rest ih =>
    obtain ⟨q, hq⟩ := updateE_ok p cs ts fc env h
    obtain ⟨qs, hqs⟩ := ih
    unfold sweepList
    rw [hq, hqs]
    exact ⟨_, rfl⟩

lemma sweepPhase_ok (g : GState) (env : Env)
    (h : g.currentState = SceneState.STAR_FORMATION → g.univ.targetStar.isSome) :
    ∃ d e, sweepPhase g env =
      .ok { g with univ := { g.univ with dustParticles := d, effectParticles := e } } := by
  obtain ⟨d, hd⟩ := sweepList_ok g.univ.dustParticles g.currentState g.univ.targetStar
    (g.frameCount : ℚ) env h
  obtain ⟨e, he⟩ := sweepList_ok g.univ.effectParticles g.currentState g.univ.targetStar
    (g.frameCount : ℚ) env h
  refine ⟨d, e, ?_⟩
  unfold sweepPhase
  rw [hd]
  simp only []
  rw [show ({ g with univ := { g.univ with dustParticles := d } } : GState).univ.effectParticles
      = g.univ.effectParticles from rfl,
    show ({ g with univ := { g.univ with dustParticles := d } } : GState).currentState
      = g.currentState from rfl,
    show ({ g with univ := { g.univ with dustParticles := d } } : GState).univ.targetStar
      = g.univ.targetStar from rfl,
    show ({ g with univ := { g.univ with dustParticles := d } } : GState).frameCount
      = g.frameCount from rfl, he]

lemma sweepPhase_facts (g : GState) (env : Env) (g' : GState)
    (h : sweepPhase g env = .ok g') :
    g'.currentState = g.currentState ∧
    g'.univ.targetStar = g.univ.targetStar ∧
    g'.univ.heritageColor = g.univ.heritageColor ∧
    g'.univ.bgBrightness = g.univ.bgBrightness ∧
    g'.univ.bigBangTimer = g.univ.bigBangTimer ∧
    g'.univ.supernovaFlash = g.univ.supernovaFlash ∧
    g'.targetPos = g.targetPos ∧
    g'.formationTimer = g.formationTimer ∧
    g'.frameCount = g.frameCount := by
  unfold sweepPhase at h
  cases h1 : sweepList g.univ.dustParticles g.currentState g.univ.targetStar
      (g.frameCount : ℚ) env with
  | error e => rw [h1] at h; cases h
  | ok d =>
    rw [h1] at h
    simp only [] at h
    cases h2 : sweepList ({ g with univ := { g.univ with dustParticles := d } } : GState).univ.effectParticles
        ({ g with univ := { g.univ with dustParticles := d } } : GState).currentState
        ({ g with univ := { g.univ with dustParticles := d } } : GState).univ.targetStar
        (({ g with univ := { g.univ with dustParticles := d } } : GState).frameCount : ℚ) env with
    | error e => rw [h2] at h; cases h
    | ok es =>
      rw [h2] at h
      simp only [Except.ok.injEq] at h
      subst h
      simp


lemma starPhase_none (g : GState) (o : Oracle) (env : Env)
    (hts : g.univ.targetStar = none) : starPhase g o env = .ok g := by
  unfold starPhase
  rw [hts]

lemma starPhase_other (g : GState) (o : Oracle) (env : Env) (s : Star)
    (hts : g.univ.targetStar = some s)
    (h1 : g.currentState ≠ SceneState.STAR_FORMATION)
    (h2 : g.currentState ≠ SceneState.OBSERVATION)
    (h3 : g.currentState ≠ SceneState.END) :
    starPhase g o env = .ok g := by
  unfold starPhase
  simp only [hts]
  rw [if_neg h1, if_neg h2]
  simp only [hts]
  unfold Star.drawStep
  by_cases hd : s.dead
  · simp only [hd, if_true, ite_true]
    rw [← hts]
  · simp only [hd, Bool.false_eq_true, if_false, ite_false]
    rw [if_neg (by simp [h3])]
    rw [← hts]

lemma starPhase_sf (g : GState) (o : Oracle) (env : Env) (s : Star)
    (hts : g.univ.targetStar = some s)
    (hcs : g.currentState = SceneState.STAR_FORMATION) :
    starPhase g o env =
      .ok { g with univ := { g.univ with targetStar := some s.formationStep } } := by
  unfold starPhase
  simp only [hts]
  rw [if_pos hcs]
  simp only []
  unfold Star.drawStep
  by_cases hd : s.formationStep.dead
  · simp only [hd, if_true, ite_true]
  · simp only [hd, Bool.false_eq_true, if_false, ite_false]
    rw [if_neg (by simp [hcs])]

lemma starPhase_obs_live (g : GState) (o : Oracle) (env : Env) (s : Star)
    (hts : g.univ.targetStar = some s)
    (hcs : g.currentState = SceneState.OBSERVATION)
    (hl : ¬ s.life - 1 ≤ 0) :
    starPhase g o env =
      .ok { g with univ := { g.univ with targetStar := some { s with life := s.life - 1 } } } := by
  unfold starPhase
  simp only [hts]
  rw [if_neg (by simp [hcs]), if_pos hcs]
  rw [if_neg (by simpa using hl)]
  unfold Star.drawStep
  by_cases hd : s.dead
  · simp [hd]
  · simp [hd, hcs]

lemma starPhase_obs_death (g : GState) (o : Oracle) (env : Env) (s : Star)
    (hts : g.univ.targetStar = some s)
    (hcs : g.currentState = SceneState.OBSERVATION)
    (hl : s.life - 1 ≤ 0)
    (hd : s.dead = false) (he : s.exploded = false) :
    starPhase g o env =
      .ok { g with
        currentState := SceneState.END
        endMessage := some (endMsgFor s.mass)
        univ := { (Star.handleEndSequence { s with life := s.life - 1, isDying := true }
                    { g.univ with targetStar := some { s with life := s.life - 1, isDying := true } }
                    o env).2 with
          targetStar := some (Star.handleEndSequence { s with life := s.life - 1, isDying := true }
                    { g.univ with targetStar := some { s with life := s.life - 1, isDying := true } }
                    o env).1 } } := by
  unfold starPhase
  simp only [hts]
  rw [if_neg (by simp [hcs]), if_pos hcs]
  rw [if_pos (by simpa using hl)]
  rw [changeState_end_ok _ o env { s with life := s.life - 1, isDying := true } (by simp)]
  simp only []
  unfold Star.drawStep
  rw [if_neg (by simp [hd]), if_pos (by simp [he])]

lemma starPhase_plain (g : GState) (o : Oracle) (env : Env) (s : Star)
    (hts : g.univ.targetStar = some s)
    (h1 : g.currentState ≠ SceneState.STAR_FORMATION)
    (h2 : g.currentState ≠ SceneState.OBSERVATION) :
    starPhase g o env =
      .ok { g with univ := { (Star.drawStep s g.currentState g.univ o env).2 with
              targetStar := some (Star.drawStep s g.currentState g.univ o env).1 } } := by
  unfold starPhase
  simp only [hts]
  rw [if_neg h1, if_neg h2]
  simp only [hts]

lemma starPhase_obs_zero (g : GState) (o : Oracle) (env : Env) (s : Star)
    (hts : g.univ.targetStar = some s)
    (hcs : g.currentState = SceneState.OBSERVATION)
    (hl : s.life - 1 ≤ 0) :
    starPhase g o env =
      .ok { g with
        currentState := SceneState.END
        endMessage := some (endMsgFor s.mass)
        univ := { (Star.drawStep { s with life := s.life - 1, isDying := true }
                    SceneState.END
                    { g.univ with targetStar := some { s with life := s.life - 1, isDying := true } }
                    o env).2 with
          targetStar := some (Star.drawStep { s with life := s.life - 1, isDying := true }
                    SceneState.END
                    { g.univ with targetStar := some { s with life := s.life - 1, isDying := true } }
                    o env).1 } } := by
  unfold starPhase
  simp only [hts]
  rw [if_neg (by simp [hcs]), if_pos hcs]
  rw [if_pos (by simpa using hl)]
  rw [changeState_end_ok _ o env { s with life := s.life - 1, isDying := true } (by simp)]

lemma drawStep_facts (s : Star) (cs : SceneState) (u : Universe) (o : Oracle) (env : Env) :
    ((Star.drawStep s cs u o env).2.heritageColor = u.heritageColor ∨
      ∃ c, (Star.drawStep s cs u o env).2.heritageColor = some c) ∧
    ((Star.drawStep s cs u o env).2.bgBrightness = u.bgBrightness ∨
      (Star.drawStep s cs u o env).2.bgBrightness = 25) := by
  unfold Star.drawStep
  by_cases hd : s.dead
  · simp [hd]
  · by_cases hc : cs = SceneState.END ∧ s.exploded = false
    · rw [if_neg (by simp [hd]), if_pos hc]
      obtain ⟨hher, hbg, -⟩ := handleEnd_facts s u o env
      exact ⟨Or.inr ⟨_, hher⟩, hbg⟩
    · rw [if_neg (by simp [hd]), if_neg hc]
      simp

lemma starPhase_facts (g : GState) (o : Oracle) (env : Env) (g' : GState)
    (h : starPhase g o env = .ok g') :
    (g'.currentState = g.currentState ∨
      (g.currentState = SceneState.OBSERVATION ∧ g'.currentState = SceneState.END)) ∧
    (g.univ.targetStar.isSome → g'.univ.targetStar.isSome) ∧
    (g'.univ.heritageColor = g.univ.heritageColor ∨ ∃ c, g'.univ.heritageColor = some c) ∧
    (g'.univ.bgBrightness = g.univ.bgBrightness ∨ g'.univ.bgBrightness = 25) ∧
    g'.targetPos = g.targetPos ∧
    g'.formationTimer = g.formationTimer ∧
    g'.frameCount = g.frameCount := by
  cases hts : g.univ.targetStar with
  | none =>
    rw [starPhase_none g o env hts] at h
    simp only [Except.ok.injEq] at h
    subst h
    simp
  | some s =>
    by_cases hsf : g.currentState = SceneState.STAR_FORMATION
    · rw [starPhase_sf g o env s hts hsf] at h
      simp only [Except.ok.injEq] at h
      subst h
      simp
    · by_cases hobs : g.currentState = SceneState.OBSERVATION
      · by_cases hl : s.life - 1 ≤ 0
        · rw [starPhase_obs_zero g o env s hts hobs hl] at h
          simp only [Except.ok.injEq] at h
          subst h
          obtain ⟨hher, hbg⟩ := drawStep_facts { s with life := s.life - 1, isDying := true }
            SceneState.END
            { g.univ with targetStar := some { s with life := s.life - 1, isDying := true } }
            o env
          refine ⟨Or.inr ⟨hobs, rfl⟩, by simp, ?_, ?_, rfl, rfl, rfl⟩
          · simpa using hher
          · simpa using hbg
        · rw [starPhase_obs_live g o env s hts hobs hl] at h
          simp only [Except.ok.injEq] at h
          subst h
          simp
      · rw [starPhase_plain g o env s hts hsf hobs] at h
        simp only [Except.ok.injEq] at h
        subst h
        obtain ⟨hher, hbg⟩ := drawStep_facts s g.currentState g.univ o env
        refine ⟨Or.inl rfl, by simp, ?_, ?_, rfl, rfl, rfl⟩
        · simpa using hher
        · simpa using hbg

lemma overlayPhase_notBB (g : GState) (o : Oracle) (env : Env)
    (hcs : g.currentState ≠ SceneState.BIG_BANG) :
    ∃ f, overlayPhase g o env =
      .ok { g with univ := { g.univ with supernovaFlash := f } } := by
  unfold overlayPhase
  by_cases hf : g.univ.supernovaFlash > 0
  · rw [if_pos hf]
    rw [if_neg (by simpa using hcs)]
    exact ⟨_, rfl⟩
  · rw [if_neg hf]
    rw [if_neg hcs]
    exact ⟨g.univ.supernovaFlash, by simp⟩

lemma overlayPhase_bb_live (g : GState) (o : Oracle) (env : Env)
    (hcs : g.currentState = SceneState.BIG_BANG)
    (ht : ¬ g.univ.bigBangTimer - 1 ≤ 0) :
    ∃ f, overlayPhase g o env =
      .ok { g with univ := { g.univ with
              supernovaFlash := f
              bigBangTimer := g.univ.bigBangTimer - 1 } } := by
  unfold overlayPhase
  by_cases hf : g.univ.supernovaFlash > 0
  · rw [if_pos hf]
    rw [if_pos (by simpa using hcs)]
    rw [if_neg (by simpa using ht)]
    exact ⟨_, rfl⟩
  · rw [if_neg hf]
    rw [if_pos hcs]
    rw [if_neg (by simpa using ht)]
    exact ⟨g.univ.supernovaFlash, by simp⟩

lemma overlayPhase_bb_fire (g : GState) (o : Oracle) (env : Env)
    (hcs : g.currentState = SceneState.BIG_BANG)
    (ht : g.univ.bigBangTimer - 1 ≤ 0) :
    ∃ f, overlayPhase g o env =
      .ok { g with
              currentState := SceneState.STAR_FORMATION
              univ := { g.univ with
                supernovaFlash := f
                bigBangTimer := g.univ.bigBangTimer - 1 } } := by
  unfold overlayPhase
  by_cases hf : g.univ.supernovaFlash > 0
  · rw [if_pos hf]
    rw [if_pos (by simpa using hcs)]
    rw [if_pos (by simpa using ht)]
    rw [changeState_notBBEnd_ok _ _ _ _ (by decide) (by decide)]
    exact ⟨_, rfl⟩
  · rw [if_neg hf]
    rw [if_pos hcs]
    rw [if_pos (by simpa using ht)]
    rw [changeState_notBBEnd_ok _ _ _ _ (by decide) (by decide)]
    exact ⟨g.univ.supernovaFlash, by simp⟩

lemma overlayPhase_facts (g : GState) (o : Oracle) (env : Env) (g' : GState)
    (h : overlayPhase g o env = .ok g') :
    (g'.currentState = g.currentState ∨
      (g.currentState = SceneState.BIG_BANG ∧ g'.currentState = SceneState.STAR_FORMATION)) ∧
    g'.univ.targetStar = g.univ.targetStar ∧
    g'.univ.heritageColor = g.univ.heritageColor ∧
    g'.univ.bgBrightness = g.univ.bgBrightness ∧
    g'.targetPos = g.targetPos ∧
    g'.formationTimer = g.formationTimer ∧
    g'.frameCount = g.frameCount := by
  by_cases hcs : g.currentState = SceneState.BIG_BANG
  · by_cases ht : g.univ.bigBangTimer - 1 ≤ 0
    · obtain ⟨f, hf⟩ := overlayPhase_bb_fire g o env hcs ht
      rw [hf] at h
      simp only [Except.ok.injEq] at h
      subst h
      exact ⟨Or.inr ⟨hcs, rfl⟩, rfl, rfl, rfl, rfl, rfl, rfl⟩
    · obtain ⟨f, hf⟩ := overlayPhase_bb_live g o env hcs ht
      rw [hf] at h
      simp only [Except.ok.injEq] at h
      subst h
      exact ⟨Or.inl rfl, rfl, rfl, rfl, rfl, rfl, rfl⟩
  · obtain ⟨f, hf⟩ := overlayPhase_notBB g o env hcs
    rw [hf] at h
    simp only [Except.ok.injEq] at h
    subst h
    exact ⟨Or.inl rfl, rfl, rfl, rfl, rfl, rfl, rfl⟩

lemma formationPhase_notSF (g : GState) (o : Oracle) (env : Env)
    (hcs : g.currentState ≠ SceneState.STAR_FORMATION) :
    formationPhase g o env = .ok g := by
  unfold formationPhase
  rw [if_neg hcs]

lemma formationPhase_sf_live (g : GState) (o : Oracle) (env : Env)
    (hcs : g.currentState = SceneState.STAR_FORMATION)
    (ht : ¬ jsTimer g.formationTimer - 1 ≤ 0) :
    formationPhase g o env =
      .ok { g with formationTimer := some (jsTimer g.formationTimer - 1) } := by
  unfold formationPhase
  rw [if_pos hcs]
  rw [if_neg (by simpa using ht)]

lemma formationPhase_sf_fire (g : GState) (o : Oracle) (env : Env)
    (hcs : g.currentState = SceneState.STAR_FORMATION)
    (ht : jsTimer g.formationTimer - 1 ≤ 0) :
    formationPhase g o env =
      .ok { g with
              currentState := SceneState.OBSERVATION
              formationTimer := some 300 } := by
  unfold formationPhase
  rw [if_pos hcs]
  rw [if_pos (by simpa using ht)]
  rw [changeState_notBBEnd_ok _ _ _ _ (by decide) (by decide)]

lemma formationPhase_facts (g : GState) (o : Oracle) (env : Env) (g' : GState)
    (h : formationPhase g o env = .ok g') :
    (g'.currentState = g.currentState ∨
      (g.currentState = SceneState.STAR_FORMATION ∧
        g'.currentState = SceneState.OBSERVATION)) ∧
    g'.univ = g.univ ∧
    g'.targetPos = g.targetPos ∧
    g'.frameCount = g.frameCount := by
  by_cases hcs : g.currentState = SceneState.STAR_FORMATION
  · by_cases ht : jsTimer g.formationTimer - 1 ≤ 0
    · rw [formationPhase_sf_fire g o env hcs ht] at h
      simp only [Except.ok.injEq] at h
      subst h
      exact ⟨Or.inr ⟨hcs, rfl⟩, rfl, rfl, rfl⟩
    · rw [formationPhase_sf_live g o env hcs ht] at h
      simp only [Except.ok.injEq] at h
      subst h
      exact ⟨Or.inl rfl, rfl, rfl, rfl⟩
  · rw [formationPhase_notSF g o env hcs] at h
    simp only [Except.ok.injEq] at h
    subst h
    exact ⟨Or.inl rfl, rfl, rfl, rfl⟩

lemma starPhase_ok (g : GState) (o : Oracle) (env : Env) :
    ∃ g2, starPhase g o env = .ok g2 := by
  cases hts : g.univ.targetStar with
  | none => exact ⟨g, starPhase_none g o env hts⟩
  | some s =>
    by_cases hsf : g.currentState = SceneState.STAR_FORMATION
    · exact ⟨_, starPhase_sf g o env s hts hsf⟩
    · by_cases hobs : g.currentState = SceneState.OBSERVATION
      · by_cases hl : s.life - 1 ≤ 0
        · exact ⟨_, starPhase_obs_zero g o env s hts hobs hl⟩
        · exact ⟨_, starPhase_obs_live g o env s hts hobs hl⟩
      · exact ⟨_, starPhase_plain g o env s hts hsf hobs⟩

lemma overlayPhase_ok (g : GState) (o : Oracle) (env : Env) :
    ∃ g2, overlayPhase g o env = .ok g2 := by
  by_cases hcs : g.currentState = SceneState.BIG_BANG
  · by_cases ht : g.univ.bigBangTimer - 1 ≤ 0
    · obtain ⟨f, hf⟩ := overlayPhase_bb_fire g o env hcs ht
      exact ⟨_, hf⟩
    · obtain ⟨f, hf⟩ := overlayPhase_bb_live g o env hcs ht
      exact ⟨_, hf⟩
  · obtain ⟨f, hf⟩ := overlayPhase_notBB g o env hcs
    exact ⟨_, hf⟩

lemma formationPhase_ok (g : GState) (o : Oracle) (env : Env) :
    ∃ g2, formationPhase g o env = .ok g2 := by
  by_cases hcs : g.currentState = SceneState.STAR_FORMATION
  · by_cases ht : jsTimer g.formationTimer - 1 ≤ 0
    · exact ⟨_, formationPhase_sf_fire g o env hcs ht⟩
    · exact ⟨_, formationPhase_sf_live g o env hcs ht⟩
  · exact ⟨_, formationPhase_notSF g o env hcs⟩

/-- Everything C8 and C9 need about one animation frame, for an
arbitrary pre-state. -/
lemma frameTick_facts (g : GState) (o : Oracle) (env : Env) (g' : GState)
    (h : frameTick g o env = .ok g') :
    (simState g'.currentState → simState g.currentState) ∧
    (g'.currentState = SceneState.BIG_BANG → g.currentState = SceneState.BIG_BANG) ∧
    (g.univ.targetStar.isSome → g'.univ.targetStar.isSome) ∧
    (g'.univ.heritageColor = g.univ.heritageColor ∨ ∃ c, g'.univ.heritageColor = some c) ∧
    (g'.univ.bgBrightness = g.univ.bgBrightness ∨ g'.univ.bgBrightness = 25) := by
  unfold frameTick at h
  dsimp only at h
  cases h1 : sweepPhase { g with univ := g.univ.ambientStep } env with
  | error e => rw [h1] at h; cases h
  | ok g2 =>
    simp only [h1] at h
    cases h2 : starPhase g2 o env with
    | error e => rw [h2] at h; cases h
    | ok g3 =>
      simp only [h2] at h
      cases h3 : overlayPhase g3 o env with
      | error e => rw [h3] at h; cases h
      | ok g4 =>
        simp only [h3] at h
        cases h4 : formationPhase g4 o env with
        | error e => rw [h4] at h; cases h
        | ok g5 =>
          simp only [h4, Except.ok.injEq] at h
          subst h
          obtain ⟨hA1, hA2, hA3, hA4, hA5, hA6, hA7⟩ := ambientStep_facts g.univ
          obtain ⟨hS1, hS2, hS3, hS4, hS5, hS6, hS7, hS8, hS9⟩ := sweepPhase_facts _ env g2 h1
          obtain ⟨hP1, hP2, hP3, hP4, hP5, hP6, hP7⟩ := starPhase_facts g2 o env g3 h2
          obtain ⟨hO1, hO2, hO3, hO4, hO5, hO6, hO7⟩ := overlayPhase_facts g3 o env g4 h3
          obtain ⟨hF1, hF2, hF3, hF4⟩ := formationPhase_facts g4 o env g5 h4
          constructor
          · intro hsim
            simp only [] at hsim
            unfold simState at hsim ⊢
            rcases hF1 with hF | ⟨hFa, hFb⟩ <;>
              rcases hO1 with hO | ⟨hOa, hOb⟩ <;>
              rcases hP1 with hP | ⟨hPa, hPb⟩ <;>
              simp_all [hS1]
          constructor
          · intro hbb
            simp only [] at hbb
            rcases hF1 with hF | ⟨hFa, hFb⟩ <;>
              rcases hO1 with hO | ⟨hOa, hOb⟩ <;>
              rcases hP1 with hP | ⟨hPa, hPb⟩ <;>
              simp_all [hS1]
          constructor
          · intro hsome
            have : g2.univ.targetStar.isSome := by
              rw [hS2]
              simpa [hA1] using hsome
            have h3some := hP2 this
            rw [hF2] at *
            rw [hO2] at *
            simpa using h3some
          constructor
          · rw [show g5.univ.heritageColor = g3.univ.heritageColor by rw [hF2, hO3]]
            rw [hS3, hA2] at hP3
            simpa using hP3
          · rw [show g5.univ.bgBrightness = g3.univ.bgBrightness by rw [hF2, hO4]]
            rw [hS4, hA3] at hP4
            simpa using hP4

/-- The state-machine invariant behind C8: every simulation state owns
a star. -/
def Inv (g : GState) : Prop :=
  simState g.currentState → g.univ.targetStar.isSome

lemma frameTick_ok (g : GState) (o : Oracle) (env : Env) (hI : Inv g) :
    ∃ g', frameTick g o env = .ok g' := by
  have hA : ({ g with univ := g.univ.ambientStep } : GState).currentState
      = SceneState.STAR_FORMATION →
      ({ g with univ := g.univ.ambientStep } : GState).univ.targetStar.isSome := by
    intro hcs
    show (g.univ.ambientStep).targetStar.isSome
    rw [(ambientStep_facts g.univ).1]
    exact hI (Or.inr (Or.inl hcs))
  obtain ⟨d, e, hsw⟩ := sweepPhase_ok { g with univ := g.univ.ambientStep } env hA
  obtain ⟨g3, hst⟩ := starPhase_ok { { g with univ := g.univ.ambientStep } with
    univ := { ({ g with univ := g.univ.ambientStep } : GState).univ with
      dustParticles := d, effectParticles := e } } o env
  obtain ⟨g4, hov⟩ := overlayPhase_ok g3 o env
  obtain ⟨g5, hfm⟩ := formationPhase_ok g4 o env
  refine ⟨{ g5 with frameCount := g5.frameCount + 1 }, ?_⟩
  unfold frameTick
  dsimp only
  simp only [hsw, hst, hov, hfm]

lemma step_Inv (env : Env) (g : GState) (e : Event) (g' : GState)
    (hI : Inv g) (h : step env g e = .ok g') : Inv g' := by
  cases e with
  | startClick =>
    simp only [step] at h
    obtain ⟨hcs, hts, -⟩ := changeState_ok_facts _ _ _ _ _ h
    intro hsim
    rw [hcs] at hsim
    rcases hsim with h1 | h1 | h1 | h1 <;> cases h1
  | canvasClick x y =>
    simp only [step] at h
    by_cases hsel : g.currentState = SceneState.SELECT_POSITION
    · rw [if_pos hsel] at h
      obtain ⟨hcs, hts, -⟩ := changeState_ok_facts _ _ _ _ _ h
      intro hsim
      rw [hcs] at hsim
      rcases hsim with h1 | h1 | h1 | h1 <;> cases h1
    · rw [if_neg hsel] at h
      simp only [Except.ok.injEq] at h
      subst h
      exact hI
  | observeClick m i o =>
    simp only [step] at h
    cases hp : g.targetPos with
    | none => rw [hp] at h; cases h
    | some p =>
      rw [hp] at h
      obtain ⟨hcs, hts, -⟩ := changeState_ok_facts _ _ _ _ _ h
      intro hsim
      rw [hts]
      simp
  | restartClick =>
    simp only [step] at h
    obtain ⟨hcs, hts, -⟩ := changeState_ok_facts _ _ _ _ _ h
    intro hsim
    rw [hcs] at hsim
    rcases hsim with h1 | h1 | h1 | h1 <;> cases h1
  | frame o =>
    simp only [step] at h
    obtain ⟨hf1, hf2, hf3, -⟩ := frameTick_facts g o env g' h
    intro hsim
    exact hf3 (hI (hf1 hsim))

lemma run_Inv (env : Env) : ∀ (es : List Event) (g g' : GState),
    Inv g → run env g es = .ok g' → Inv g' := by
  intro es
  induction es with
  | nil =>
    intro g g' hI h
    unfold run at h
    simp only [Except.ok.injEq] at h
    subst h
    exact hI
  | cons e rest ih =>
    intro g g' hI h
    unfold run at h
    cases h1 : step env g e with
    | error er => rw [h1] at h; cases h
    | ok g1 =>
      rw [h1] at h
      exact ih g1 g' (step_Inv env g e g1 hI h1) h

lemma initialG_Inv (env : Env) (o0 : Oracle) : Inv (initialG env o0) := by
  intro hsim
  rcases hsim with h1 | h1 | h1 | h1 <;> cases h1

/-- The state after the start click and a canvas click at (100,100):
SET_PARAMETERS with a captured target position. -/
def gObsW : GState :=
  { currentState := .SET_PARAMETERS
    targetPos := some ⟨100, 100⟩
    univ := Universe.init envT oT
    formationTimer := none
    endMessage := none
    frameCount := 0 }


/-- C8: in every reachable state, whenever the scene is in one of the
star-dereferencing states (BIG_BANG, STAR_FORMATION, OBSERVATION, END)
the universe owns a star, and an animation frame can never fail on a
null dereference; moreover the only step that enters BIG_BANG from
elsewhere is the observe click, which has just constructed and
assigned the star it dereferences. -/
theorem claim_C8 :
    (∀ (env : Env) (o0 : Oracle) (g : GState), Reachable env o0 g →
        (simState g.currentState → g.univ.targetStar.isSome) ∧
        (∀ o, ∃ g', frameTick g o env = .ok g')) ∧
    (∀ (env : Env) (g : GState) (e : Event) (g' : GState),
        step env g e = .ok g' →
        g'.currentState = SceneState.BIG_BANG →
        g.currentState = SceneState.BIG_BANG ∨
        (∃ m i o, e = Event.observeClick m i o ∧ ∃ p, g.targetPos = some p ∧
          g'.univ.targetStar =
            some (Star.create p.x p.y m i g.univ.heritageColor))) := by
  constructor
  · intro env o0 g hr
    obtain ⟨es, hes⟩ := hr
    have hI : Inv g := run_Inv env es (initialG env o0) g (initialG_Inv env o0) hes
    exact ⟨hI, fun o => frameTick_ok g o env hI⟩
  · intro env g e g' h hbb
    cases e with
    | startClick =>
      simp only [step] at h
      obtain ⟨hcs, -⟩ := changeState_ok_facts _ _ _ _ _ h
      rw [hcs] at hbb
      cases hbb
    | canvasClick x y =>
      simp only [step] at h
      by_cases hsel : g.currentState = SceneState.SELECT_POSITION
      · rw [if_pos hsel] at h
        obtain ⟨hcs, -⟩ := changeState_ok_facts _ _ _ _ _ h
        rw [hcs] at hbb
        cases hbb
      · rw [if_neg hsel] at h
        simp only [Except.ok.injEq] at h
        subst h
        exact Or.inl hbb
    | observeClick m i o =>
      simp only [step] at h
      cases hp : g.targetPos with
      | none => rw [hp] at h; cases h
      | some p =>
        rw [hp] at h
        obtain ⟨hcs, hts, -⟩ := changeState_ok_facts _ _ _ _ _ h
        refine Or.inr ⟨m, i, o, rfl, p, rfl, ?_⟩
        rw [hts]
    | restartClick =>
      simp only [step] at h
      obtain ⟨hcs, -⟩ := changeState_ok_facts _ _ _ _ _ h
      rw [hcs] at hbb
      cases hbb
    | frame o =>
      simp only [step] at h
      obtain ⟨-, hf2, -⟩ := frameTick_facts g o env g' h
      exact Or.inl (hf2 hbb)

theorem claim_C8_witness :
    ((simState gObsW.currentState → gObsW.univ.targetStar.isSome) ∧
      (∃ g', frameTick gObsW oT envT = .ok g')) ∧
    (∀ g', step envT gObsW (Event.observeClick 50 50 oT) = .ok g' →
      g'.currentState = SceneState.BIG_BANG →
      gObsW.currentState = SceneState.BIG_BANG ∨
      (∃ m i o, Event.observeClick 50 50 oT = Event.observeClick m i o ∧
        ∃ p, gObsW.targetPos = some p ∧
          g'.univ.targetStar =
            some (Star.create p.x p.y m i gObsW.univ.heritageColor))) :=
  ⟨⟨((claim_C8.1 envT oT gObsW ⟨[Event.startClick, Event.canvasClick 100 100], rfl⟩).1),
    ((claim_C8.1 envT oT gObsW ⟨[Event.startClick, Event.canvasClick 100 100], rfl⟩).2 oT)⟩,
   fun g' h hbb => claim_C8.2 envT gObsW (Event.observeClick 50 50 oT) g' h hbb⟩

lemma restart_step (env : Env) (g : GState) :
    step env g Event.restartClick =
      .ok { g with
        currentState := SceneState.INIT
        targetPos := none
        univ := { g.univ with
          targetStar := none
          dustParticles := []
          effectParticles := []
          whiteDwarf := none
          blackHoleEffect := none
          bgBrightness := 10 } } := by
  simp only [step]
  rw [changeState_notBBEnd_ok _ _ _ _ (by decide) (by decide)]

lemma step_heritage (env : Env) (g : GState) (e : Event) (g' : GState)
    (h : step env g e = .ok g') :
    g'.univ.heritageColor = g.univ.heritageColor ∨
      ∃ c, g'.univ.heritageColor = some c := by
  cases e with
  | startClick =>
    simp only [step] at h
    obtain ⟨-, -, hher, -⟩ := changeState_ok_facts _ _ _ _ _ h
    exact Or.inl hher
  | canvasClick x y =>
    simp only [step] at h
    by_cases hsel : g.currentState = SceneState.SELECT_POSITION
    · rw [if_pos hsel] at h
      obtain ⟨-, -, hher, -⟩ := changeState_ok_facts _ _ _ _ _ h
      exact Or.inl hher
    · rw [if_neg hsel] at h
      simp only [Except.ok.injEq] at h
      subst h
      exact Or.inl rfl
  | observeClick m i o =>
    simp only [step] at h
    cases hp : g.targetPos with
    | none => rw [hp] at h; cases h
    | some p =>
      rw [hp] at h
      obtain ⟨-, -, hher, -⟩ := changeState_ok_facts _ _ _ _ _ h
      exact Or.inl hher
  | restartClick =>
    rw [restart_step] at h
    simp only [Except.ok.injEq] at h
    subst h
    exact Or.inl rfl
  | frame o =>
    simp only [step] at h
    obtain ⟨-, -, -, hher, -⟩ := frameTick_facts g o env g' h
    exact hher

lemma step_brightness (env : Env) (g : GState) (e : Event) (g' : GState)
    (h : step env g e = .ok g') :
    g'.univ.bgBrightness = g.univ.bgBrightness ∨
      g'.univ.bgBrightness = 25 ∨
      (e = Event.restartClick ∧ g'.univ.bgBrightness = 10) := by
  cases e with
  | startClick =>
    simp only [step] at h
    obtain ⟨-, -, -, hbg, -⟩ := changeState_ok_facts _ _ _ _ _ h
    exact Or.inl hbg
  | canvasClick x y =>
    simp only [step] at h
    by_cases hsel : g.currentState = SceneState.SELECT_POSITION
    · rw [if_pos hsel] at h
      obtain ⟨-, -, -, hbg, -⟩ := changeState_ok_facts _ _ _ _ _ h
      exact Or.inl hbg
    · rw [if_neg hsel] at h
      simp only [Except.ok.injEq] at h
      subst h
      exact Or.inl rfl
  | observeClick m i o =>
    simp only [step] at h
    cases hp : g.targetPos with
    | none => rw [hp] at h; cases h
    | some p =>
      rw [hp] at h
      obtain ⟨-, -, -, hbg, -⟩ := changeState_ok_facts _ _ _ _ _ h
      exact Or.inl hbg
  | restartClick =>
    rw [restart_step] at h
    simp only [Except.ok.injEq] at h
    subst h
    exact Or.inr (Or.inr ⟨rfl, rfl⟩)
  | frame o =>
    simp only [step] at h
    obtain ⟨-, -, -, -, hbg⟩ := frameTick_facts g o env g' h
    rcases hbg with hbg | hbg
    · exact Or.inl hbg
    · exact Or.inr (Or.inl hbg)

/-- C9: the heritage (legacy) color, once set, is never cleared by any
event — in particular the restart click resets particles, the white
dwarf, the black-hole effect and the background brightness but leaves
the heritage color untouched; a set heritage color biases every
subsequent star's constructed color (a 15% blend, which provably moves
any channel the heritage differs on) and the background tint (a 1%
blend); and the ambient brightness only ratchets upward (to its cap
25) under every non-restart event, with restart resetting it to its
base 10. -/
theorem claim_C9 :
    (∀ (env : Env) (g : GState) (e : Event) (g' : GState),
        step env g e = .ok g' →
        g.univ.heritageColor.isSome → g'.univ.heritageColor.isSome) ∧
    (∀ (env : Env) (g : GState),
        step env g Event.restartClick =
          .ok { g with
            currentState := SceneState.INIT
            targetPos := none
            univ := { g.univ with
              targetStar := none
              dustParticles := []
              effectParticles := []
              whiteDwarf := none
              blackHoleEffect := none
              bgBrightness := 10 } }) ∧
    (∀ (x y m i : ℚ) (h : Color),
        (Star.create x y m i (some h)).baseColor =
          ⟨lerpQ (tierColor m).r h.r (15/100), lerpQ (tierColor m).g h.g (15/100),
           lerpQ (tierColor m).b h.b (15/100)⟩) ∧
    (∀ (u : Universe) (h : Color), u.heritageColor = some h →
        u.bgColor = ⟨lerpQ 5 h.r (1/100), lerpQ 5 h.g (1/100), lerpQ 5 h.b (1/100)⟩) ∧
    (∀ (m : ℚ) (h : Color), h.r ≠ (tierColor m).r →
        (calculateStarColor m (some h)).r ≠ (tierColor m).r) ∧
    (∀ (env : Env) (g : GState) (e : Event) (g' : GState),
        step env g e = .ok g' →
        (g.univ.bgBrightness = 10 ∨ g.univ.bgBrightness = 25) →
        (e ≠ Event.restartClick → g.univ.bgBrightness ≤ g'.univ.bgBrightness) ∧
        (g'.univ.bgBrightness = 10 ∨ g'.univ.bgBrightness = 25) ∧
        g'.univ.bgBrightness ≤ 25) := by
  refine ⟨?_, ?_, ?_, ?_, ?_, ?_⟩
  · intro env g e g' h hsome
    rcases step_heritage env g e g' h with hh | ⟨c, hh⟩
    · rw [hh]; exact hsome
    · rw [hh]; simp
  · intro env g
    exact restart_step env g
  · intro x y m i h
    rfl
  · intro u h hher
    unfold Universe.bgColor
    rw [hher]
  · intro m h hne
    unfold calculateStarColor lerpQ
    simp only []
    intro heq
    apply hne
    have : h.r - (tierColor m).r = 0 := by linarith
    linarith
  · intro env g e g' h hbase
    rcases step_brightness env g e g' h with hb | hb | ⟨he, hb⟩
    · refine ⟨fun _ => le_of_eq hb.symm, by rw [hb]; exact hbase, ?_⟩
      rw [hb]
      rcases hbase with h10 | h25
      · rw [h10]; norm_num
      · rw [h25]
    · refine ⟨fun _ => ?_, Or.inr hb, by rw [hb]⟩
      rw [hb]
      rcases hbase with h10 | h25
      · rw [h10]; norm_num
      · rw [h25]
    · subst he
      exact ⟨fun hne => absurd rfl hne, Or.inl hb, by rw [hb]; norm_num⟩

/-- A SET_PARAMETERS state that already carries a heritage color. -/
def gHerW : GState :=
  { gObsW with univ := { gObsW.univ with heritageColor := some ⟨10, 20, 30⟩ } }

theorem claim_C9_witness :
    ((gHerW.univ.heritageColor.isSome = true →
      ({ gHerW with
        currentState := SceneState.INIT
        targetPos := none
        univ := { gHerW.univ with
          targetStar := none
          dustParticles := []
          effectParticles := []
          whiteDwarf := none
          blackHoleEffect := none
          bgBrightness := 10 } } : GState).univ.heritageColor.isSome = true) ∧
     step envT gHerW Event.restartClick =
      .ok { gHerW with
        currentState := SceneState.INIT
        targetPos := none
        univ := { gHerW.univ with
          targetStar := none
          dustParticles := []
          effectParticles := []
          whiteDwarf := none
          blackHoleEffect := none
          bgBrightness := 10 } }) ∧
    (Star.create 0 0 50 50 (some ⟨10, 20, 30⟩)).baseColor =
      ⟨lerpQ (tierColor 50).r 10 (15/100), lerpQ (tierColor 50).g 20 (15/100),
       lerpQ (tierColor 50).b 30 (15/100)⟩ ∧
    gHerW.univ.bgColor = ⟨lerpQ 5 10 (1/100), lerpQ 5 20 (1/100), lerpQ 5 30 (1/100)⟩ ∧
    (calculateStarColor 50 (some ⟨10, 20, 30⟩)).r ≠ (tierColor 50).r ∧
    (Event.restartClick ≠ Event.restartClick →
        gHerW.univ.bgBrightness ≤
          ({ gHerW with
            currentState := SceneState.INIT
            targetPos := none
            univ := { gHerW.univ with
              targetStar := none
              dustParticles := []
              effectParticles := []
              whiteDwarf := none
              blackHoleEffect := none
              bgBrightness := 10 } } : GState).univ.bgBrightness) :=
  ⟨⟨claim_C9.1 envT gHerW Event.restartClick _ (restart_step envT gHerW),
    claim_C9.2.1 envT gHerW⟩,
   claim_C9.2.2.1 0 0 50 50 ⟨10, 20, 30⟩,
   claim_C9.2.2.2.1 gHerW.univ ⟨10, 20, 30⟩ rfl,
   claim_C9.2.2.2.2.1 50 ⟨10, 20, 30⟩ (by norm_num [tierColor, mapQ]),
   (claim_C9.2.2.2.2.2 envT gHerW Event.restartClick _ (restart_step envT gHerW)
      (Or.inl rfl)).1⟩

lemma drawStep_id (s : Star) (cs : SceneState) (u : Universe) (o : Oracle) (env : Env)
    (hcs : cs ≠ SceneState.END) : Star.drawStep s cs u o env = (s, u) := by
  unfold Star.drawStep
  by_cases hd : s.dead
  · rw [if_pos hd]
  · rw [if_neg hd, if_neg (by simp [hcs])]

lemma frame_bb_live (g : GState) (o : Oracle) (env : Env) (s : Star)
    (hcs : g.currentState = SceneState.BIG_BANG)
    (hts : g.univ.targetStar = some s)
    (ht : ¬ g.univ.bigBangTimer - 1 ≤ 0) :
    ∃ g', frameTick g o env = .ok g' ∧
      g'.currentState = SceneState.BIG_BANG ∧
      g'.univ.targetStar = some s ∧
      g'.univ.bigBangTimer = g.univ.bigBangTimer - 1 ∧
      g'.formationTimer = g.formationTimer := by
  obtain ⟨d, e, hsw⟩ := sweepPhase_ok { g with univ := g.univ.ambientStep } env
    (by intro hcs'
        exact absurd (show g.currentState = SceneState.STAR_FORMATION from hcs')
          (by rw [hcs]; decide))
  set gB : GState := { { g with univ := g.univ.ambientStep } with
      univ := { ({ g with univ := g.univ.ambientStep } : GState).univ with
        dustParticles := d, effectParticles := e } } with hgB
  have hcsB : gB.currentState = SceneState.BIG_BANG := hcs
  have htsB : gB.univ.targetStar = some s := by
    show (g.univ.ambientStep).targetStar = some s
    rw [(ambientStep_facts g.univ).1, hts]
  have hbbB : gB.univ.bigBangTimer = g.univ.bigBangTimer := by
    show (g.univ.ambientStep).bigBangTimer = g.univ.bigBangTimer
    exact (ambientStep_facts g.univ).2.2.2.1
  have hst := starPhase_plain gB o env s htsB
    (by rw [hcsB]; decide) (by rw [hcsB]; decide)
  rw [drawStep_id s _ _ o env (by rw [hcsB]; decide)] at hst
  set gC : GState := { gB with univ := { gB.univ with targetStar := some s } } with hgC
  have hcsC : gC.currentState = SceneState.BIG_BANG := hcsB
  have hbbC : gC.univ.bigBangTimer = g.univ.bigBangTimer := hbbB
  obtain ⟨f, hov⟩ := overlayPhase_bb_live gC o env hcsC (by rw [hbbC]; exact ht)
  set gD : GState := { gC with univ := { gC.univ with
      supernovaFlash := f
      bigBangTimer := gC.univ.bigBangTimer - 1 } } with hgD
  have hfm := formationPhase_notSF gD o env (by show gC.currentState ≠ _; rw [hcsC]; decide)
  refine ⟨{ gD with frameCount := gD.frameCount + 1 }, ?_, hcsC, rfl, ?_, rfl⟩
  · unfold frameTick
    dsimp only
    simp only [hsw, hst, hov, hfm]
  · show gC.univ.bigBangTimer - 1 = g.univ.bigBangTimer - 1
    rw [hbbC]

lemma jsTimer_some (t : ℚ) (h : t ≠ 0) : jsTimer (some t) = t := by
  simp [jsTimer, h]

lemma frame_bb_fire (g : GState) (o : Oracle) (env : Env) (s : Star)
    (hcs : g.currentState = SceneState.BIG_BANG)
    (hts : g.univ.targetStar = some s)
    (ht : g.univ.bigBangTimer - 1 ≤ 0)
    (hft : g.formationTimer = none) :
    ∃ g', frameTick g o env = .ok g' ∧
      g'.currentState = SceneState.STAR_FORMATION ∧
      g'.univ.targetStar = some s ∧
      g'.formationTimer = some 299 := by
  obtain ⟨d, e, hsw⟩ := sweepPhase_ok { g with univ := g.univ.ambientStep } env
    (by intro hcs'
        exact absurd (show g.currentState = SceneState.STAR_FORMATION from hcs')
          (by rw [hcs]; decide))
  set gB : GState := { { g with univ := g.univ.ambientStep } with
      univ := { ({ g with univ := g.univ.ambientStep } : GState).univ with
        dustParticles := d, effectParticles := e } } with hgB
  have hcsB : gB.currentState = SceneState.BIG_BANG := hcs
  have htsB : gB.univ.targetStar = some s := by
    show (g.univ.ambientStep).targetStar = some s
    rw [(ambientStep_facts g.univ).1, hts]
  have hbbB : gB.univ.bigBangTimer = g.univ.bigBangTimer := by
    show (g.univ.ambientStep).bigBangTimer = g.univ.bigBangTimer
    exact (ambientStep_facts g.univ).2.2.2.1
  have hst := starPhase_plain gB o env s htsB
    (by rw [hcsB]; decide) (by rw [hcsB]; decide)
  rw [drawStep_id s _ _ o env (by rw [hcsB]; decide)] at hst
  set gC : GState := { gB with univ := { gB.univ with targetStar := some s } } with hgC
  have hcsC : gC.currentState = SceneState.BIG_BANG := hcsB
  have hbbC : gC.univ.bigBangTimer = g.univ.bigBangTimer := hbbB
  obtain ⟨f, hov⟩ := overlayPhase_bb_fire gC o env hcsC (by rw [hbbC]; exact ht)
  set gD : GState := { gC with
      currentState := SceneState.STAR_FORMATION
      univ := { gC.univ with
        supernovaFlash := f
        bigBangTimer := gC.univ.bigBangTimer - 1 } } with hgD
  have hftD : gD.formationTimer = none := hft
  have hfm := formationPhase_sf_live gD o env rfl
    (by rw [hftD]; norm_num [jsTimer])
  refine ⟨{ gD with
      formationTimer := some (jsTimer gD.formationTimer - 1)
      frameCount := gD.frameCount + 1 }, ?_, rfl, rfl, ?_⟩
  · unfold frameTick
    dsimp only
    simp only [hsw, hst, hov, hfm]
  · show some (jsTimer gD.formationTimer - 1) = some (299 : ℚ)
    rw [hftD]
    norm_num [jsTimer]

lemma frame_sf_live (g : GState) (o : Oracle) (env : Env) (s : Star) (t : ℚ)
    (hcs : g.currentState = SceneState.STAR_FORMATION)
    (hts : g.univ.targetStar = some s)
    (hft : g.formationTimer = some t)
    (htne : t ≠ 0)
    (ht : ¬ t - 1 ≤ 0) :
    ∃ g', frameTick g o env = .ok g' ∧
      g'.currentState = SceneState.STAR_FORMATION ∧
      g'.univ.targetStar = some s.formationStep ∧
      g'.formationTimer = some (t - 1) := by
  obtain ⟨d, e, hsw⟩ := sweepPhase_ok { g with univ := g.univ.ambientStep } env
    (by intro hcs'
        show (g.univ.ambientStep).targetStar.isSome
        rw [(ambientStep_facts g.univ).1, hts]
        rfl)
  set gB : GState := { { g with univ := g.univ.ambientStep } with
      univ := { ({ g with univ := g.univ.ambientStep } : GState).univ with
        dustParticles := d, effectParticles := e } } with hgB
  have hcsB : gB.currentState = SceneState.STAR_FORMATION := hcs
  have htsB : gB.univ.targetStar = some s := by
    show (g.univ.ambientStep).targetStar = some s
    rw [(ambientStep_facts g.univ).1, hts]
  have hst := starPhase_sf gB o env s htsB hcsB
  set gC : GState := { gB with univ := { gB.univ with targetStar := some s.formationStep } }
    with hgC
  have hcsC : gC.currentState = SceneState.STAR_FORMATION := hcsB
  obtain ⟨f, hov⟩ := overlayPhase_notBB gC o env (by rw [hcsC]; decide)
  set gD : GState := { gC with univ := { gC.univ with supernovaFlash := f } } with hgD
  have hftD : gD.formationTimer = some t := hft
  have hfm := formationPhase_sf_live gD o env hcsC
    (by rw [hftD, jsTimer_some t htne]; exact ht)
  refine ⟨{ gD with
      formationTimer := some (jsTimer gD.formationTimer - 1)
      frameCount := gD.frameCount + 1 }, ?_, hcsC, rfl, ?_⟩
  · unfold frameTick
    dsimp only
    simp only [hsw, hst, hov, hfm]
  · show some (jsTimer gD.formationTimer - 1) = some (t - 1)
    rw [hftD, jsTimer_some t htne]

lemma frame_sf_fire (g : GState) (o : Oracle) (env : Env) (s : Star) (t : ℚ)
    (hcs : g.currentState = SceneState.STAR_FORMATION)
    (hts : g.univ.targetStar = some s)
    (hft : g.formationTimer = some t)
    (htne : t ≠ 0)
    (ht : t - 1 ≤ 0) :
    ∃ g', frameTick g o env = .ok g' ∧
      g'.currentState = SceneState.OBSERVATION ∧
      g'.univ.targetStar = some s.formationStep ∧
      g'.formationTimer = some 300 := by
  obtain ⟨d, e, hsw⟩ := sweepPhase_ok { g with univ := g.univ.ambientStep } env
    (by intro hcs'
        show (g.univ.ambientStep).targetStar.isSome
        rw [(ambientStep_facts g.univ).1, hts]
        rfl)
  set gB : GState := { { g with univ := g.univ.ambientStep } with
      univ := { ({ g with univ := g.univ.ambientStep } : GState).univ with
        dustParticles := d, effectParticles := e } } with hgB
  have hcsB : gB.currentState = SceneState.STAR_FORMATION := hcs
  have htsB : gB.univ.targetStar = some s := by
    show (g.univ.ambientStep).targetStar = some s
    rw [(ambientStep_facts g.univ).1, hts]
  have hst := starPhase_sf gB o env s htsB hcsB
  set gC : GState := { gB with univ := { gB.univ with targetStar := some s.formationStep } }
    with hgC
  have hcsC : gC.currentState = SceneState.STAR_FORMATION := hcsB
  obtain ⟨f, hov⟩ := overlayPhase_notBB gC o env (by rw [hcsC]; decide)
  set gD : GState := { gC with univ := { gC.univ with supernovaFlash := f } } with hgD
  have hftD : gD.formationTimer = some t := hft
  have hfm := formationPhase_sf_fire gD o env hcsC
    (by rw [hftD, jsTimer_some t htne]; exact ht)
  refine ⟨{ gD with
      currentState := SceneState.OBSERVATION
      formationTimer := some 300
      frameCount := gD.frameCount + 1 }, ?_, rfl, rfl, rfl⟩
  unfold frameTick
  dsimp only
  simp only [hsw, hst, hov, hfm]

lemma handleEnd_bh (s : Star) (u : Universe) (o : Oracle) (env : Env)
    (hm : 85 < s.mass) :
    (Star.handleEndSequence s u o env).2.blackHoleEffect =
      some ⟨s.pos.x, s.pos.y, 0, 80, 255⟩ := by
  unfold Star.handleEndSequence
  rw [if_pos (show s.mass > 85 from hm)]
  simp [Universe.gravityCollapse, Universe.createRemnant]

lemma endMsgFor_bh (m : ℚ) (hm : 85 < m) :
    endMsgFor m = "星は、その役目を終えました。" := by
  unfold endMsgFor
  rw [if_pos (show m > 85 from hm)]

lemma frame_obs_live (g : GState) (o : Oracle) (env : Env) (s : Star)
    (hcs : g.currentState = SceneState.OBSERVATION)
    (hts : g.univ.targetStar = some s)
    (hl : ¬ s.life - 1 ≤ 0) :
    ∃ g', frameTick g o env = .ok g' ∧
      g'.currentState = SceneState.OBSERVATION ∧
      g'.univ.targetStar = some { s with life := s.life - 1 } ∧
      g'.formationTimer = g.formationTimer := by
  obtain ⟨d, e, hsw⟩ := sweepPhase_ok { g with univ := g.univ.ambientStep } env
    (by intro hcs'
        exact absurd (show g.currentState = SceneState.STAR_FORMATION from hcs')
          (by rw [hcs]; decide))
  set gB : GState := { { g with univ := g.univ.ambientStep } with
      univ := { ({ g with univ := g.univ.ambientStep } : GState).univ with
        dustParticles := d, effectParticles := e } } with hgB
  have hcsB : gB.currentState = SceneState.OBSERVATION := hcs
  have htsB : gB.univ.targetStar = some s := by
    show (g.univ.ambientStep).targetStar = some s
    rw [(ambientStep_facts g.univ).1, hts]
  have hst := starPhase_obs_live gB o env s htsB hcsB hl
  set gC : GState := { gB with univ := { gB.univ with
      targetStar := some { s with life := s.life - 1 } } } with hgC
  have hcsC : gC.currentState = SceneState.OBSERVATION := hcsB
  obtain ⟨f, hov⟩ := overlayPhase_notBB gC o env (by rw [hcsC]; decide)
  set gD : GState := { gC with univ := { gC.univ with supernovaFlash := f } } with hgD
  have hfm := formationPhase_notSF gD o env (by show gC.currentState ≠ _; rw [hcsC]; decide)
  refine ⟨{ gD with frameCount := gD.frameCount + 1 }, ?_, hcsC, rfl, rfl⟩
  unfold frameTick
  dsimp only
  simp only [hsw, hst, hov, hfm]

lemma frame_obs_death (g : GState) (o : Oracle) (env : Env) (s : Star)
    (hcs : g.currentState = SceneState.OBSERVATION)
    (hts : g.univ.targetStar = some s)
    (hl : s.life - 1 ≤ 0)
    (hd : s.dead = false) (he : s.exploded = false)
    (hm : 85 < s.mass) :
    ∃ g', frameTick g o env = .ok g' ∧
      g'.currentState = SceneState.END ∧
      g'.endMessage = some "星は、その役目を終えました。" ∧
      g'.univ.blackHoleEffect.isSome ∧
      g'.univ.heritageColor.isSome := by
  obtain ⟨d, e, hsw⟩ := sweepPhase_ok { g with univ := g.univ.ambientStep } env
    (by intro hcs'
        exact absurd (show g.currentState = SceneState.STAR_FORMATION from hcs')
          (by rw [hcs]; decide))
  set gB : GState := { { g with univ := g.univ.ambientStep } with
      univ := { ({ g with univ := g.univ.ambientStep } : GState).univ with
        dustParticles := d, effectParticles := e } } with hgB
  have hcsB : gB.currentState = SceneState.OBSERVATION := hcs
  have htsB : gB.univ.targetStar = some s := by
    show (g.univ.ambientStep).targetStar = some s
    rw [(ambientStep_facts g.univ).1, hts]
  have hst := starPhase_obs_death gB o env s htsB hcsB hl hd he
  set s2 : Star := { s with life := s.life - 1, isDying := true } with hs2
  set u2 : Universe := { gB.univ with targetStar := some s2 } with hu2
  set gC : GState := { gB with
      currentState := SceneState.END
      endMessage := some (endMsgFor s.mass)
      univ := { (Star.handleEndSequence s2 u2 o env).2 with
        targetStar := some (Star.handleEndSequence s2 u2 o env).1 } } with hgC
  have hcsC : gC.currentState = SceneState.END := rfl
  obtain ⟨f, hov⟩ := overlayPhase_notBB gC o env (by rw [hcsC]; decide)
  set gD : GState := { gC with univ := { gC.univ with supernovaFlash := f } } with hgD
  have hfm := formationPhase_notSF gD o env (by show gC.currentState ≠ _; rw [hcsC]; decide)
  have hher : gD.univ.heritageColor = some s2.baseColor := by
    show (Star.handleEndSequence s2 u2 o env).2.heritageColor = some s2.baseColor
    exact (handleEnd_facts s2 u2 o env).1
  have hbh : gD.univ.blackHoleEffect = some ⟨s2.pos.x, s2.pos.y, 0, 80, 255⟩ := by
    show (Star.handleEndSequence s2 u2 o env).2.blackHoleEffect = _
    exact handleEnd_bh s2 u2 o env hm
  refine ⟨{ gD with frameCount := gD.frameCount + 1 }, ?_, rfl, ?_, ?_, ?_⟩
  · unfold frameTick
    dsimp only
    simp only [hsw, hst, hov, hfm]
  · show some (endMsgFor s.mass) = some _
    rw [endMsgFor_bh s.mass hm]
  · show gD.univ.blackHoleEffect.isSome
    rw [hbh]
    rfl
  · show gD.univ.heritageColor.isSome
    rw [hher]
    rfl

lemma runStates_nil (env : Env) (g : GState) : runStates env g [] = .ok (g, []) := rfl

lemma runStates_cons (env : Env) (g : GState) (e : Event) (g1 : GState)
    (rest : List Event) (gf : GState) (sts : List SceneState)
    (h1 : step env g e = .ok g1)
    (h2 : runStates env g1 rest = .ok (gf, sts)) :
    runStates env g (e :: rest) = .ok (gf, g1.currentState :: sts) := by
  unfold runStates
  simp only [h1, h2]

lemma runStates_append (env : Env) (l1 : List Event) :
    ∀ (l2 : List Event) (g g1 gf : GState) (s1 s2 : List SceneState),
    runStates env g l1 = .ok (g1, s1) →
    runStates env g1 l2 = .ok (gf, s2) →
    runStates env g (l1 ++ l2) = .ok (gf, s1 ++ s2) := by
  induction l1 with
  | nil =>
    intro l2 g g1 gf s1 s2 h1 h2
    rw [runStates_nil] at h1
    simp only [Except.ok.injEq, Prod.mk.injEq] at h1
    obtain ⟨rfl, rfl⟩ := h1
    simpa using h2
  | cons e rest ih =>
    intro l2 g g1 gf s1 s2 h1 h2
    unfold runStates at h1
    cases hs : step env g e with
    | error er => rw [hs] at h1; cases h1
    | ok ga =>
      rw [hs] at h1
      dsimp only at h1
      cases hr : runStates env ga rest with
      | error er => rw [hr] at h1; cases h1
      | ok p =>
        obtain ⟨gb, sb⟩ := p
        rw [hr] at h1
        dsimp only at h1
        simp only [Except.ok.injEq, Prod.mk.injEq] at h1
        obtain ⟨rfl, rfl⟩ := h1
        have := ih l2 ga gb gf sb s2 hr h2
        rw [show (e :: rest) ++ l2 = e :: (rest ++ l2) from rfl]
        rw [runStates_cons env g e ga (rest ++ l2) gf (sb ++ s2) hs this]
        simp

lemma formationStep_pres (s : Star) :
    (s.formationStep).mass = s.mass ∧ (s.formationStep).life = s.life ∧
    (s.formationStep).dead = s.dead ∧ (s.formationStep).exploded = s.exploded := by
  unfold Star.formationStep
  by_cases h1 : s.size < s.targetSize <;> by_cases h2 : s.currentAlpha < s.maxAlpha <;>
    simp [h1, h2]

lemma runBB (env : Env) (o : Oracle) :
    ∀ (b : ℕ) (g : GState) (s : Star), 1 ≤ b →
    g.currentState = SceneState.BIG_BANG →
    g.univ.targetStar = some s →
    g.univ.bigBangTimer = (b : ℚ) →
    g.formationTimer = none →
    ∃ g' sts, runStates env g (List.replicate b (Event.frame o)) = .ok (g', sts) ∧
      sts = List.replicate (b - 1) SceneState.BIG_BANG ++ [SceneState.STAR_FORMATION] ∧
      g'.currentState = SceneState.STAR_FORMATION ∧
      g'.univ.targetStar = some s ∧
      g'.formationTimer = some 299 := by
  intro b
  induction b with
  | zero => intro g s h1; exact absurd h1 (by decide)
  | succ k ih =>
    intro g s _ hcs hts hbb hft
    by_cases hk : k = 0
    · subst hk
      have hfire := frame_bb_fire g o env s hcs hts (by rw [hbb]; norm_num) hft
      obtain ⟨g1, hfr, hcs1, hts1, hft1⟩ := hfire
      refine ⟨g1, [g1.currentState], ?_, ?_, hcs1, hts1, hft1⟩
      · exact runStates_cons env g _ g1 [] g1 [] hfr (runStates_nil env g1)
      · rw [hcs1]
        rfl
    · have hk1 : 1 ≤ k := Nat.one_le_iff_ne_zero.mpr hk
      have hlive := frame_bb_live g o env s hcs hts
        (by rw [hbb]
            have : (1 : ℚ) ≤ (k + 1 : ℕ) - 1 := by push_cast; simp; exact_mod_cast hk1
            intro hcon
            linarith)
      obtain ⟨g1, hfr, hcs1, hts1, hbb1, hft1⟩ := hlive
      have hbb1' : g1.univ.bigBangTimer = (k : ℚ) := by
        rw [hbb1, hbb]
        push_cast
        ring
      have hft1' : g1.formationTimer = none := by rw [hft1, hft]
      obtain ⟨g', sts, hrun, hsts, hcsf, htsf, hftf⟩ := ih g1 s hk1 hcs1 hts1 hbb1' hft1'
      refine ⟨g', g1.currentState :: sts, ?_, ?_, hcsf, htsf, hftf⟩
      · exact runStates_cons env g _ g1 _ g' sts hfr hrun
      · rw [hcs1, hsts]
        have hrw : k + 1 - 1 = (k - 1) + 1 := by omega
        rw [hrw, List.replicate_succ]
        simp

lemma runSF (env : Env) (o : Oracle) :
    ∀ (t : ℕ) (g : GState) (s : Star), 1 ≤ t →
    g.currentState = SceneState.STAR_FORMATION →
    g.univ.targetStar = some s →
    g.formationTimer = some (t : ℚ) →
    ∃ g' s' sts, runStates env g (List.replicate t (Event.frame o)) = .ok (g', sts) ∧
      sts = List.replicate (t - 1) SceneState.STAR_FORMATION ++ [SceneState.OBSERVATION] ∧
      g'.currentState = SceneState.OBSERVATION ∧
      g'.univ.targetStar = some s' ∧
      s'.mass = s.mass ∧ s'.life = s.life ∧ s'.dead = s.dead ∧ s'.exploded = s.exploded ∧
      g'.formationTimer = some 300 := by
  intro t
  induction t with
  | zero => intro g s h1; exact absurd h1 (by decide)
  | succ k ih =>
    intro g s _ hcs hts hft
    obtain ⟨hm, hl, hdd, hee⟩ := formationStep_pres s
    by_cases hk : k = 0
    · subst hk
      have hfire := frame_sf_fire g o env s ((1 : ℕ) : ℚ) hcs hts (by exact_mod_cast hft)
        (by norm_num) (by norm_num)
      obtain ⟨g1, hfr, hcs1, hts1, hft1⟩ := hfire
      refine ⟨g1, s.formationStep, [g1.currentState], ?_, ?_, hcs1, hts1,
        hm, hl, hdd, hee, hft1⟩
      · exact runStates_cons env g _ g1 [] g1 [] hfr (runStates_nil env g1)
      · rw [hcs1]
        rfl
    · have hk1 : 1 ≤ k := Nat.one_le_iff_ne_zero.mpr hk
      have hkq : (1 : ℚ) ≤ (k : ℚ) := by exact_mod_cast hk1
      have hlive := frame_sf_live g o env s ((k + 1 : ℕ) : ℚ) hcs hts hft
        (by push_cast; intro hcon; linarith)
        (by push_cast; intro hcon; linarith)
      obtain ⟨g1, hfr, hcs1, hts1, hft1⟩ := hlive
      have hft1' : g1.formationTimer = some (k : ℚ) := by
        rw [hft1]
        push_cast
        norm_num
      obtain ⟨g', s', sts, hrun, hsts, hcsf, htsf, hm', hl', hdd', hee', hftf⟩ :=
        ih g1 s.formationStep hk1 hcs1 hts1 hft1'
      refine ⟨g', s', g1.currentState :: sts, ?_, ?_, hcsf, htsf,
        hm'.trans hm, hl'.trans hl, hdd'.trans hdd, hee'.trans hee, hftf⟩
      · exact runStates_cons env g _ g1 _ g' sts hfr hrun
      · rw [hcs1, hsts]
        have hrw : k + 1 - 1 = (k - 1) + 1 := by omega
        rw [hrw, List.replicate_succ]
        simp

lemma runOBS (env : Env) (o : Oracle) :
    ∀ (n : ℕ) (g : GState) (s : Star), 1 ≤ n →
    g.currentState = SceneState.OBSERVATION →
    g.univ.targetStar = some s →
    s.life = (n : ℚ) →
    s.dead = false → s.exploded = false → 85 < s.mass →
    ∃ g' sts, runStates env g (List.replicate n (Event.frame o)) = .ok (g', sts) ∧
      sts = List.replicate (n - 1) SceneState.OBSERVATION ++ [SceneState.END] ∧
      g'.currentState = SceneState.END ∧
      g'.endMessage = some "星は、その役目を終えました。" ∧
      g'.univ.blackHoleEffect.isSome ∧
      g'.univ.heritageColor.isSome := by
  intro n
  induction n with
  | zero => intro g s h1; exact absurd h1 (by decide)
  | succ k ih =>
    intro g s _ hcs hts hlife hdd hee hmass
    by_cases hk : k = 0
    · subst hk
      have hdeath := frame_obs_death g o env s hcs hts
        (by rw [hlife]; norm_num) hdd hee hmass
      obtain ⟨g1, hfr, hcs1, hmsg1, hbh1, hher1⟩ := hdeath
      refine ⟨g1, [g1.currentState], ?_, ?_, hcs1, hmsg1, hbh1, hher1⟩
      · exact runStates_cons env g _ g1 [] g1 [] hfr (runStates_nil env g1)
      · rw [hcs1]
        rfl
    · have hk1 : 1 ≤ k := Nat.one_le_iff_ne_zero.mpr hk
      have hkq : (1 : ℚ) ≤ (k : ℚ) := by exact_mod_cast hk1
      have hlive := frame_obs_live g o env s hcs hts
        (by rw [hlife]; push_cast; intro hcon; linarith)
      obtain ⟨g1, hfr, hcs1, hts1, -⟩ := hlive
      have hlife1 : ({ s with life := s.life - 1 } : Star).life = (k : ℚ) := by
        show s.life - 1 = (k : ℚ)
        rw [hlife]
        push_cast
        norm_num
      obtain ⟨g', sts, hrun, hsts, hcsf, hmsgf, hbhf, hherf⟩ :=
        ih g1 { s with life := s.life - 1 } hk1 hcs1 hts1 hlife1 hdd hee hmass
      refine ⟨g', g1.currentState :: sts, ?_, ?_, hcsf, hmsgf, hbhf, hherf⟩
      · exact runStates_cons env g _ g1 _ g' sts hfr hrun
      · rw [hcs1, hsts]
        have hrw : k + 1 - 1 = (k - 1) + 1 := by omega
        rw [hrw, List.replicate_succ]
        simp

lemma dedupCons_pair (a b : SceneState) (l : List SceneState) :
    dedupCons (a :: b :: l) =
      if a = b then dedupCons (b :: l) else a :: dedupCons (b :: l) := rfl

lemma dedup_cons_ne (a b : SceneState) (l : List SceneState) (h : a ≠ b) :
    dedupCons (a :: b :: l) = a :: dedupCons (b :: l) := by
  rw [dedupCons_pair, if_neg h]

lemma dedup_rep (a : SceneState) :
    ∀ (n : ℕ) (l : List SceneState),
    dedupCons (a :: (List.replicate n a ++ l)) = dedupCons (a :: l) := by
  intro n
  induction n with
  | zero => intro l; rfl
  | succ m ih =>
    intro l
    rw [List.replicate_succ, List.cons_append, dedupCons_pair, if_pos rfl]
    exact ih l

/-- C2 counterexample: the code's `STATES` object has no
`BLACK_HOLE_SINK` entry, so no scene can ever be in such a state and
the claimed BIG_BANG → … → BLACK_HOLE_SINK → END sequence is
impossible as stated. -/
theorem claim_C2_cex : "BLACK_HOLE_SINK" ∉ STATES := by decide

/-- C2 (amended): no `BLACK_HOLE_SINK` scene state exists; the
black-hole branch records its visual in `universe.blackHoleEffect`
instead of requesting a scene state, and for a star confirmed with
mass 95 at (100,100) the scene passes through exactly
INIT, SELECT_POSITION, SET_PARAMETERS, BIG_BANG, STAR_FORMATION,
OBSERVATION, END — with the END state carrying the black-hole effect,
the updated heritage color and the black-hole end message. -/
theorem claim_C2 (env : Env) (o0 o : Oracle) :
    ("BLACK_HOLE_SINK" ∉ STATES) ∧
    (∀ st : SceneState, stateName st ≠ "BLACK_HOLE_SINK") ∧
    ∃ gf sts,
      runStates env (initialG env o0)
        ([Event.startClick, Event.canvasClick 100 100, Event.observeClick 95 80 o] ++
          List.replicate 2319 (Event.frame o)) = .ok (gf, sts) ∧
      dedupCons (SceneState.INIT :: sts) =
        [SceneState.INIT, SceneState.SELECT_POSITION, SceneState.SET_PARAMETERS,
         SceneState.BIG_BANG, SceneState.STAR_FORMATION, SceneState.OBSERVATION,
         SceneState.END] ∧
      gf.currentState = SceneState.END ∧
      gf.univ.blackHoleEffect.isSome ∧
      gf.univ.heritageColor.isSome ∧
      gf.endMessage = some "星は、その役目を終えました。" := by
  refine ⟨by decide, by intro st; cases st <;> decide, ?_⟩
  set star95 : Star := Star.create 100 100 95 80 none with hstar95
  set gS1 : GState := { initialG env o0 with currentState := SceneState.SELECT_POSITION }
    with hgS1
  have h1 : step env (initialG env o0) Event.startClick = .ok gS1 := by
    simp only [step]
    exact changeState_notBBEnd_ok _ _ _ _ (by decide) (by decide)
  set gS2 : GState := { { gS1 with targetPos := some ⟨100, 100⟩ } with
    currentState := SceneState.SET_PARAMETERS } with hgS2
  have h2 : step env gS1 (Event.canvasClick 100 100) = .ok gS2 := by
    simp only [step, ite_true, if_true]
    exact changeState_notBBEnd_ok _ _ _ _ (by decide) (by decide)
  set gS3 : GState := { gS2 with
    currentState := SceneState.BIG_BANG
    univ := { gS2.univ with
      targetStar := some star95
      bigBangTimer := 80
      shakeAmount := 15
      dustParticles := initDustList star95 env o } } with hgS3
  have h3 : step env gS2 (Event.observeClick 95 80 o) = .ok gS3 := rfl
  have hrun3 : runStates env (initialG env o0)
      [Event.startClick, Event.canvasClick 100 100, Event.observeClick 95 80 o] =
      .ok (gS3, [SceneState.SELECT_POSITION, SceneState.SET_PARAMETERS,
        SceneState.BIG_BANG]) := by
    have c3 := runStates_cons env gS2 _ gS3 [] gS3 [] h3 (runStates_nil env gS3)
    have c2 := runStates_cons env gS1 _ gS2 _ gS3 _ h2 c3
    exact runStates_cons env (initialG env o0) _ gS1 _ gS3 _ h1 c2
  obtain ⟨gB, stsB, hrunB, hstsB, hcsB, htsB, hftB⟩ :=
    runBB env o 80 gS3 star95 (by norm_num) rfl rfl
      (by show (80 : ℚ) = ((80 : ℕ) : ℚ); norm_num) rfl
  obtain ⟨gO, sO, stsSF, hrunSF, hstsSF, hcsO, htsO, hmO, hlO, hddO, heeO, hftO⟩ :=
    runSF env o 299 gB star95 (by norm_num) hcsB htsB
      (by rw [hftB]; norm_num)
  obtain ⟨gf, stsO, hrunO, hstsO, hcsEnd, hmsg, hbh, hher⟩ :=
    runOBS env o 1940 gO sO (by norm_num) hcsO htsO
      (by rw [hlO]
          show (Star.create 100 100 95 80 none).life = ((1940 : ℕ) : ℚ)
          norm_num [Star.create, mapQ])
      (hddO.trans rfl)
      (heeO.trans rfl)
      (by rw [hmO]; show (85 : ℚ) < 95; norm_num)
  have hrunFrames : runStates env gS3 (List.replicate 2319 (Event.frame o)) =
      .ok (gf, stsB ++ (stsSF ++ stsO)) := by
    rw [show (2319 : ℕ) = 80 + (299 + 1940) from by norm_num,
      List.replicate_add, List.replicate_add]
    exact runStates_append env _ _ _ _ _ _ _ hrunB
      (runStates_append env _ _ _ _ _ _ _ hrunSF hrunO)
  have hrunAll : runStates env (initialG env o0)
      ([Event.startClick, Event.canvasClick 100 100, Event.observeClick 95 80 o] ++
        List.replicate 2319 (Event.frame o)) =
      .ok (gf, [SceneState.SELECT_POSITION, SceneState.SET_PARAMETERS,
        SceneState.BIG_BANG] ++ (stsB ++ (stsSF ++ stsO))) :=
    runStates_append env _ _ _ _ _ _ _ hrun3 hrunFrames
  refine ⟨gf, _, hrunAll, ?_, hcsEnd, hbh, hher, hmsg⟩
  rw [hstsB, hstsSF, hstsO]
  simp only [List.cons_append, List.nil_append, List.append_assoc]
  rw [dedup_cons_ne _ _ _ (by decide), dedup_cons_ne _ _ _ (by decide),
    dedup_cons_ne _ _ _ (by decide), dedup_rep, dedup_cons_ne _ _ _ (by decide),
    dedup_rep, dedup_cons_ne _ _ _ (by decide), dedup_rep,
    dedup_cons_ne _ _ _ (by decide)]
  rfl

theorem claim_C2_witness :
    "BLACK_HOLE_SINK" ∉ STATES ∧
    stateName SceneState.OBSERVATION ≠ "BLACK_HOLE_SINK" :=
  ⟨(claim_C2 envT oT oT).1, (claim_C2 envT oT oT).2.1 SceneState.OBSERVATION⟩
